import Mathlib

/-!
Verification of the crypto_assistant trading core against its specification.

The development shallowly embeds the Python modules
`modules/smart_stoploss.py`, `modules/trading_system.py`,
`modules/smc_scanner.py` and `modules/smc_strategy.py` into Lean.
Prices and balances are modelled as rationals.  I/O performed by the code
(database reads, exchange-gateway calls, the wall clock) is modelled by
explicit environment records passed to each operation; quantities that the
source derives from such I/O (the ATR of database candles, the standard
deviation of recent returns, ticker prices, order outcomes) appear as fields
of those environments.  `try/except` blocks of the source are modelled by
boolean error fields selecting the corresponding handler branch.  Leading
underscores of Python method names are dropped (`_check_risk_limits`
becomes `check_risk_limits`); everything else keeps the source's names.
-/

namespace CryptoAssistant

/-- Position direction, the `position_type` strings `'LONG'` / `'SHORT'`
used throughout `trading_system.py` and `smart_stoploss.py`. -/
inductive PositionType
| LONG
| SHORT
deriving DecidableEq

/-! ## SmartStopLoss (`modules/smart_stoploss.py`) -/

/-- The `self.settings` dict of `SmartStopLoss.__init__`.
`atr_period` is not modelled separately: the ATR value computed from the
database candles over that period is an environment input. -/
structure StopSettings where
  atr_multiplier : ℚ
  volatility_threshold : ℚ
  trailing_enabled : Bool
  break_even_enabled : Bool
  max_risk_per_trade : ℚ
deriving DecidableEq

/-- The default settings installed by `SmartStopLoss.__init__`. -/
def defaultStopSettings : StopSettings :=
  { atr_multiplier := 2
    volatility_threshold := 2/100
    trailing_enabled := true
    break_even_enabled := true
    max_risk_per_trade := 2/100 }

/-- `SmartStopLoss.calculate_fixed_stop_loss`: fixed percentage stop,
the fallback used when dynamic computation is impossible. -/
def calculate_fixed_stop_loss (entry_price : ℚ) (position_type : PositionType)
    (risk_percent : ℚ) : ℚ :=
  match position_type with
  | .LONG => entry_price * (1 - risk_percent)
  | .SHORT => entry_price * (1 + risk_percent)

/-- `SmartStopLoss.calculate_volatility_factor`, applied to the standard
deviation of recent close-to-close returns (an environment input, since the
candles come from the database). -/
def calculate_volatility_factor (s : StopSettings) (volatility : ℚ) : ℚ :=
  if volatility < s.volatility_threshold then 8/10
  else if s.volatility_threshold * 2 < volatility then 15/10
  else 1

/-- Call-time market data for `calculate_dynamic_stop_loss`:
`ohlcv_empty` is `get_recent_ohlcv(symbol, 50).empty`, `atr` the result of
`calculate_atr` on those candles (that helper returns `0` on its own
internal error), `volatility` the standard deviation of returns fed to
`calculate_volatility_factor`, and `error` selects the outer `except`
branch of the method. -/
structure DynEnv where
  error : Bool
  ohlcv_empty : Bool
  atr : ℚ
  volatility : ℚ

/-- `SmartStopLoss.calculate_dynamic_stop_loss`.  Note that the source's
fallback calls `calculate_fixed_stop_loss` with its default
`risk_percent=0.02`, independent of `settings['max_risk_per_trade']`. -/
def calculate_dynamic_stop_loss (s : StopSettings) (env : DynEnv)
    (position_type : PositionType) (entry_price : ℚ) : ℚ :=
  if env.error then calculate_fixed_stop_loss entry_price position_type (2/100)
  else if env.ohlcv_empty then calculate_fixed_stop_loss entry_price position_type (2/100)
  else if env.atr = 0 then calculate_fixed_stop_loss entry_price position_type (2/100)
  else
    let volatility_factor := calculate_volatility_factor s env.volatility
    let base_stop_distance := env.atr * s.atr_multiplier * volatility_factor
    match position_type with
    | .LONG => max (entry_price - base_stop_distance) (entry_price * (1 - s.max_risk_per_trade))
    | .SHORT => min (entry_price + base_stop_distance) (entry_price * (1 + s.max_risk_per_trade))

/-- Call-time market data for `calculate_trailing_stop_loss`:
`ohlcv_empty` is `get_recent_ohlcv(symbol, 20).empty`, `atr` the ATR of
those candles, `error` the method's `except` branch (which returns
`previous_stop`). -/
structure TrailEnv where
  error : Bool
  ohlcv_empty : Bool
  atr : ℚ

/-- `SmartStopLoss.calculate_trailing_stop_loss`: moves the stop only in
the favorable direction relative to `previous_stop`. -/
def calculate_trailing_stop_loss (s : StopSettings) (env : TrailEnv)
    (position_type : PositionType) (entry_price current_price : ℚ)
    (previous_stop : Option ℚ) : Option ℚ :=
  if env.error then previous_stop
  else if !s.trailing_enabled then previous_stop
  else if env.ohlcv_empty then previous_stop
  else
    let trailing_distance := env.atr * s.atr_multiplier * (7/10)
    match position_type with
    | .LONG =>
      match previous_stop with
      | none => some (entry_price - trailing_distance)
      | some prev =>
        let new_stop := current_price - trailing_distance
        if prev < new_stop then some new_stop else some prev
    | .SHORT =>
      match previous_stop with
      | none => some (entry_price + trailing_distance)
      | some prev =>
        let new_stop := current_price + trailing_distance
        if new_stop < prev then some new_stop else some prev

/-- `SmartStopLoss.calculate_break_even_stop`.  The source computes
`profit_pct = abs(current_price - entry_price) / entry_price`; with
`entry_price = 0` that raises `ZeroDivisionError`, caught by the method's
`except`, which returns `None` — hence the explicit zero test here. -/
def calculate_break_even_stop (s : StopSettings) (position_type : PositionType)
    (entry_price current_price profit_threshold : ℚ) : Option ℚ :=
  if !s.break_even_enabled then none
  else if entry_price = 0 then none
  else if profit_threshold ≤ |current_price - entry_price| / entry_price then
    match position_type with
    | .LONG => some (entry_price * (1001/1000))
    | .SHORT => some (entry_price * (999/1000))
  else none

/-- Per-position stop record, the values stored in
`SmartStopLoss.position_stops[position_id]` (the `last_updated` timestamp
is omitted: nothing reads it). -/
structure StopInfo where
  symbol : String
  position_type : PositionType
  entry_price : ℚ
  current_stop : ℚ
  dynamic_stop : ℚ
  trailing_stop : Option ℚ
  break_even_stop : Option ℚ
deriving DecidableEq

/-- The `position_stops` dict of `SmartStopLoss`. -/
abbrev StopMap := String → Option StopInfo

/-- The empty `position_stops` dict. -/
def emptyStops : StopMap := fun _ => none

/-- Python's `x or y` on an optional float: `None` and `0.0` are falsy. -/
def pyOr (o : Option ℚ) (d : ℚ) : ℚ :=
  match o with
  | none => d
  | some x => if x = 0 then d else x

/-- All call-time inputs of one `update_position_stop_loss` call:
the market data consumed by the dynamic and trailing computations and the
`internal_error` flag selecting the method's own outer `except` branch
(which returns the fixed 2% stop and leaves `position_stops` untouched). -/
structure StopCallEnv where
  internal_error : Bool
  dyn : DynEnv
  trail : TrailEnv

/-- `SmartStopLoss.update_position_stop_loss`: combines dynamic, trailing
and break-even candidates (`max` of the three for LONG, `min` for SHORT,
with Python `or`-falsiness substituting the dynamic stop for a `None` or
`0.0` candidate), stores the result under `position_id`, and returns it. -/
def update_position_stop_loss (s : StopSettings) (env : StopCallEnv)
    (stops : StopMap) (position_id symbol : String)
    (position_type : PositionType) (entry_price current_price : ℚ) :
    ℚ × StopMap :=
  if env.internal_error then
    (calculate_fixed_stop_loss entry_price position_type (2/100), stops)
  else
    let dynamic_stop := calculate_dynamic_stop_loss s env.dyn position_type entry_price
    let previous_stop := (stops position_id).map (·.current_stop)
    let trailing_stop :=
      calculate_trailing_stop_loss s env.trail position_type entry_price current_price previous_stop
    let break_even_stop :=
      calculate_break_even_stop s position_type entry_price current_price (1/100)
    let final_stop :=
      match position_type with
      | .LONG => max dynamic_stop
          (max (pyOr trailing_stop dynamic_stop) (pyOr break_even_stop dynamic_stop))
      | .SHORT => min dynamic_stop
          (min (pyOr trailing_stop dynamic_stop) (pyOr break_even_stop dynamic_stop))
    let info : StopInfo :=
      { symbol := symbol
        position_type := position_type
        entry_price := entry_price
        current_stop := final_stop
        dynamic_stop := dynamic_stop
        trailing_stop := trailing_stop
        break_even_stop := break_even_stop }
    (final_stop, fun k => if k = position_id then some info else stops k)

/-- `SmartStopLoss.check_stop_loss_hit`. -/
def check_stop_loss_hit (stops : StopMap) (position_id : String)
    (current_price : ℚ) : Bool :=
  match stops position_id with
  | none => false
  | some info =>
    match info.position_type with
    | .LONG => decide (current_price ≤ info.current_stop)
    | .SHORT => decide (info.current_stop ≤ current_price)

/-- `SmartStopLoss.remove_position_stop`. -/
def remove_position_stop (stops : StopMap) (position_id : String) : StopMap :=
  fun k => if k = position_id then none else stops k

/-- A sequence of `update_position_stop_loss` calls for one position,
each with its own market-data environment and current price; returns the
list of returned stop prices and the final `position_stops` state. -/
def run_stop_updates (s : StopSettings) (position_id symbol : String)
    (position_type : PositionType) (entry_price : ℚ) :
    List (StopCallEnv × ℚ) → StopMap → List ℚ × StopMap
  | [], m => ([], m)
  | (env, current) :: rest, m =>
    let r := update_position_stop_loss s env m position_id symbol position_type entry_price current
    let tail := run_stop_updates s position_id symbol position_type entry_price rest r.2
    (r.1 :: tail.1, tail.2)

/-- Non-loosening order on stop prices: a LONG stop may only rise, a SHORT
stop may only fall. -/
def favorable (position_type : PositionType) (old new : ℚ) : Prop :=
  match position_type with
  | .LONG => old ≤ new
  | .SHORT => new ≤ old

/-- A well-formed stop-update call: no internal error, market ATR inputs
non-negative, positive current price. -/
def callOK (c : StopCallEnv × ℚ) : Prop :=
  c.1.internal_error = false ∧ 0 ≤ c.1.dyn.atr ∧ 0 ≤ c.1.trail.atr ∧ 0 < c.2

instance (pt : PositionType) (a b : ℚ) : Decidable (favorable pt a b) :=
  match pt with
  | .LONG => inferInstanceAs (Decidable (a ≤ b))
  | .SHORT => inferInstanceAs (Decidable (b ≤ a))

instance (c : StopCallEnv × ℚ) : Decidable (callOK c) := by
  unfold callOK
  infer_instance

/-- Environment of a stop-update call whose database reads for the dynamic
stop come back empty while the trailing computation sees candles with
ATR 1, and no exception occurs. -/
def c1EnvNormal : StopCallEnv :=
  { internal_error := false
    dyn := { error := false, ohlcv_empty := true, atr := 0, volatility := 0 }
    trail := { error := false, ohlcv_empty := false, atr := 1 } }

/-- Environment of a stop-update call that hits the outer `except` branch
of `update_position_stop_loss`. -/
def c1EnvError : StopCallEnv :=
  { internal_error := true
    dyn := { error := false, ohlcv_empty := true, atr := 0, volatility := 0 }
    trail := { error := false, ohlcv_empty := false, atr := 1 } }

/-- The trader's signed unrealized-profit fraction of a position, as the
spec's break-even clause understands it (positive when the trade is in
profit): `(current - entry)/entry` for LONG, `(entry - current)/entry` for
SHORT.  Written from the claim's words, for comparison with the source's
`calculate_break_even_stop`, which uses `abs(current - entry)/entry`. -/
def spec_unrealized_profit_frac (position_type : PositionType)
    (entry_price current_price : ℚ) : ℚ :=
  match position_type with
  | .LONG => (current_price - entry_price) / entry_price
  | .SHORT => (entry_price - current_price) / entry_price

/-! ## TradingSystem (`modules/trading_system.py`) -/

/-- The `status` field of a `TradingPosition`: `'OPEN'` or `'CLOSED'`. -/
inductive PStatus
| OPEN
| CLOSED
deriving DecidableEq

/-- The `TradingPosition` dataclass. -/
structure TradingPosition where
  position_id : String
  symbol : String
  position_type : PositionType
  entry_price : ℚ
  quantity : ℚ
  stop_loss : ℚ
  take_profit : ℚ
  status : PStatus
  created_at : String
  pnl : ℚ
  leverage : ℚ
  order_id : String
  exit_price : ℚ
  closed_at : String
  close_reason : String
deriving DecidableEq

/-- The `SpotHolding` dataclass. -/
structure SpotHolding where
  symbol : String
  quantity : ℚ
  avg_price : ℚ
  total_cost : ℚ
  last_buy_price : ℚ
  last_buy_time : String
  last_sell_price : ℚ
  last_sell_time : String
deriving DecidableEq

/-- The `trading_mode` setting: `'both'`, `'futures'` or `'spot'`. -/
inductive TradingMode
| both
| futures
| spot
deriving DecidableEq

/-- A trading signal as returned by
`_get_trading_signal_with_confidence`: `'LONG'`, `'SHORT'` or `'HOLD'`. -/
inductive TradeSignal
| LONG
| SHORT
| HOLD
deriving DecidableEq

/-- The configuration surface read by `_load_configurations`
(only the fields the modelled methods consult). -/
structure TradingConfig where
  risk_percent : ℚ
  max_positions : Nat
  cooldown_period : ℚ
  trading_mode : TradingMode
  futures_enabled : Bool
  spot_enabled : Bool
  futures_pairs : List String
  spot_pairs : List String
  min_spot_amount : ℚ
  max_spot_amount : ℚ
  spot_trading_fee : ℚ
  futures_trading_fee : ℚ
  default_leverage : ℚ
  max_daily_loss : ℚ
  max_position_size : ℚ
  max_daily_trades : Nat
  volatility_filter : Bool

/-- The configuration defaults of `_load_configurations`. -/
def defaultTradingConfig : TradingConfig :=
  { risk_percent := 2
    max_positions := 5
    cooldown_period := 300
    trading_mode := .both
    futures_enabled := true
    spot_enabled := true
    futures_pairs := ["BTC-USDT-SWAP", "ETH-USDT-SWAP", "SOL-USDT-SWAP"]
    spot_pairs := ["BTC-USDT", "ETH-USDT", "SOL-USDT"]
    min_spot_amount := 10
    max_spot_amount := 1000
    spot_trading_fee := 1/1000
    futures_trading_fee := 4/10000
    default_leverage := 10
    max_daily_loss := 5/100
    max_position_size := 2/10
    max_daily_trades := 20
    volatility_filter := true }

/-- The mutable account and position-book state of `TradingSystem`
(`self.positions` is a Python dict, hence an insertion-ordered
association list with unique keys). -/
structure TradingState where
  balance : ℚ
  available_balance : ℚ
  positions : List (String × TradingPosition)
  spot_holdings : String → Option SpotHolding
  daily_pnl : ℚ
  today_start_balance : ℚ
  position_count : Nat
  total_trades_today : Nat
  auto_trading : Bool
  last_trade_time : Option ℚ

/-- The combined state of the trade manager and its stop engine
(`TradingSystem` plus its `smart_stoploss` collaborator, which the source
treats as always present after successful initialisation). -/
structure SysState where
  ts : TradingState
  stops : StopMap

/-- Lookup in a Python dict modelled as an association list. -/
def dictLookup {α : Type} : List (String × α) → String → Option α
  | [], _ => none
  | (k, v) :: rest, key => if k = key then some v else dictLookup rest key

/-- Python dict assignment `m[key] = v`: replaces in place when the key
exists, appends otherwise. -/
def dictInsert {α : Type} (m : List (String × α)) (key : String) (v : α) :
    List (String × α) :=
  if (dictLookup m key).isSome then
    m.map (fun p => if p.1 = key then (key, v) else p)
  else m ++ [(key, v)]

/-- One tick's worth of collaborator responses: ticker prices, gateway
order/close outcomes, signal sources, the clock, the per-call market
environments consumed by the stop engine, and the account snapshot — all
I/O in the source. -/
structure GatewayEnv where
  now : ℚ
  time_str : String
  price : String → Option ℚ
  futures_close_ok : String → Bool
  futures_order_ok : String → Bool
  futures_order_id : String → String
  spot_order_ok : String → Bool
  signal : String → TradeSignal × ℚ
  stop_call : String → StopCallEnv
  dyn_open : String → DynEnv
  balance_info : Option (ℚ × ℚ)
  is_new_day : Bool

/-- `TradingSystem.get_open_positions`. -/
def get_open_positions (st : TradingState) : List TradingPosition :=
  (st.positions.filter (fun p => decide (p.2.status = PStatus.OPEN))).map (·.2)

/-- The number of Open positions in the book. -/
def openPositionCount (st : TradingState) : Nat :=
  (get_open_positions st).length

/-- `TradingSystem._calculate_position_size`: sizes a futures position
from the available balance and the risk percent, capped by the
max-position-size fraction and floored at `min_size = 0.001`.  A zero
price raises `ZeroDivisionError`, caught by the method's `except`, which
returns `0.0`. -/
def calculate_position_size (cfg : TradingConfig) (available_balance price : ℚ) : ℚ :=
  if price = 0 then 0
  else
    let risk_amount := available_balance * cfg.risk_percent / 100
    let position_size := risk_amount / price
    let max_size_usdt := available_balance * cfg.max_position_size
    let max_size := max_size_usdt / price
    let min_size : ℚ := 1/1000
    max (min position_size max_size) min_size

/-- `TradingSystem._calculate_spot_position_size`.  As above, a zero
price falls to the `except` branch returning `0.0`. -/
def calculate_spot_position_size (cfg : TradingConfig) (available_balance price : ℚ) : ℚ :=
  if price = 0 then 0
  else
    let max_size_usdt := min (available_balance * cfg.max_position_size) cfg.max_spot_amount
    let position_size := max_size_usdt / price
    if position_size * price < cfg.min_spot_amount then cfg.min_spot_amount / price
    else position_size

/-- `TradingSystem._calculate_position_pnl`: direction-signed price move
times quantity, minus a round trip of fees, scaled by leverage. -/
def calculate_position_pnl (cfg : TradingConfig) (position : TradingPosition)
    (current_price : ℚ) : ℚ :=
  let pnl :=
    match position.position_type with
    | .LONG => (current_price - position.entry_price) * position.quantity
    | .SHORT => (position.entry_price - current_price) * position.quantity
  (pnl - position.quantity * position.entry_price * cfg.futures_trading_fee * 2) *
    position.leverage

/-- `TradingSystem._check_risk_limits`: `True` means trading must stop.
The daily-loss test divides by `today_start_balance`; a zero balance
raises `ZeroDivisionError`, caught by the `except`, which conservatively
returns `True`.  Note that the position-count test compares the size of
the whole `self.positions` dict — Open and Closed alike. -/
def check_risk_limits (cfg : TradingConfig) (st : TradingState) : Bool :=
  if st.today_start_balance = 0 then true
  else if cfg.max_daily_loss ≤ |st.daily_pnl| / st.today_start_balance then true
  else if cfg.max_positions ≤ st.positions.length then true
  else false

/-- `TradingSystem._check_market_volatility`: the source is a stub that
always returns `True`. -/
def check_market_volatility : Bool := true

/-- `TradingSystem._can_execute_trade`: like `_check_risk_limits`, the
position-count guard compares the size of the whole `self.positions`
dict, not the number of Open positions. -/
def can_execute_trade (cfg : TradingConfig) (st : TradingState) (now : ℚ) : Bool :=
  if cfg.max_positions ≤ st.positions.length then false
  else if cfg.max_daily_trades ≤ st.total_trades_today then false
  else if (match st.last_trade_time with
           | some t => decide (now - t < cfg.cooldown_period)
           | none => false) then false
  else if cfg.volatility_filter && !check_market_volatility then false
  else true

/-- `TradingSystem._should_close_position`: stop-loss and take-profit
crossing on the position's own fields, then the stop engine's
`check_stop_loss_hit`. -/
def should_close_position (stops : StopMap) (position : TradingPosition)
    (current_price : ℚ) : Bool :=
  if decide (0 < position.stop_loss) &&
      (match position.position_type with
       | .LONG => decide (current_price ≤ position.stop_loss)
       | .SHORT => decide (position.stop_loss ≤ current_price)) then true
  else if decide (0 < position.take_profit) &&
      (match position.position_type with
       | .LONG => decide (position.take_profit ≤ current_price)
       | .SHORT => decide (current_price ≤ position.take_profit)) then true
  else if check_stop_loss_hit stops position.position_id current_price then true
  else false

/-- `TradingSystem.close_position`: error returns in order — unknown id,
not Open, no ticker price, gateway refusal — each leaving the state
untouched; on success the position is marked CLOSED with exit price,
realized P&L, close reason and timestamp, daily P&L and balances are
updated, and the stop engine's record is removed. -/
def close_position (cfg : TradingConfig) (env : GatewayEnv) (st : SysState)
    (position_id reason : String) : (Bool × String) × SysState :=
  match dictLookup st.ts.positions position_id with
  | none => ((false, "❌ 持倉不存在"), st)
  | some position =>
    if position.status ≠ PStatus.OPEN then ((false, "❌ 持倉已關閉"), st)
    else
      match env.price position.symbol with
      | none => ((false, "❌ 無法獲取當前價格"), st)
      | some current_price =>
        if !env.futures_close_ok position.symbol then ((false, "❌ 平倉失敗"), st)
        else
          let pnl := calculate_position_pnl cfg position current_price
          let position' := { position with
            status := PStatus.CLOSED
            exit_price := current_price
            closed_at := env.time_str
            pnl := pnl
            close_reason := reason }
          let ts' := { st.ts with
            positions := dictInsert st.ts.positions position_id position'
            daily_pnl := st.ts.daily_pnl + pnl
            balance := st.ts.balance + pnl
            available_balance := st.ts.available_balance + pnl }
          ((true, "✅ 平倉成功"), { ts := ts', stops := remove_position_stop st.stops position_id })

/-- `TradingSystem._calculate_stop_loss`: delegates to the stop engine's
`calculate_dynamic_stop_loss` (passing `current_price = entry_price`,
which that method ignores).  The `smart_stoploss is None` fallback is not
modelled: the engine is present after successful initialisation. -/
def calculate_stop_loss (s : StopSettings) (env : DynEnv)
    (position_type : PositionType) (entry_price : ℚ) : ℚ :=
  calculate_dynamic_stop_loss s env position_type entry_price

/-- `TradingSystem._calculate_take_profit`: a 1:2 risk:reward target
around the computed stop. -/
def calculate_take_profit (s : StopSettings) (env : DynEnv)
    (position_type : PositionType) (entry_price : ℚ) : ℚ :=
  let stop_loss := calculate_stop_loss s env position_type entry_price
  let risk := |entry_price - stop_loss|
  match position_type with
  | .LONG => entry_price + risk * 2
  | .SHORT => entry_price - risk * 2

/-- The quantity actually ordered: `if not quantity:` computes the
risk-based size for both `None` and `0`. -/
def resolve_order_quantity (cfg : TradingConfig) (available_balance price : ℚ)
    (quantity? : Option ℚ) : ℚ :=
  match quantity? with
  | none => calculate_position_size cfg available_balance price
  | some q => if q = 0 then calculate_position_size cfg available_balance price else q

/-- `TradingSystem.open_long_position`.  `if not quantity:` treats both
`None` and `0` as "compute the size from risk"; a failed gateway order
aborts with no state change (`futures_set_leverage` failure is only
logged); on success the position is stored in the book under
`LONG_{symbol}_{int(time.time())}`, the position counter is incremented,
and the stop engine is initialised for the new position.  Note the method
performs no check against `max_positions`. -/
def open_long_position (cfg : TradingConfig) (s : StopSettings) (env : GatewayEnv)
    (st : SysState) (symbol : String) (price : ℚ) (quantity? : Option ℚ) :
    (Bool × String) × SysState :=
  if resolve_order_quantity cfg st.ts.available_balance price quantity? ≤ 0 then
    ((false, "計算的倉位大小無效"), st)
  else if !env.futures_order_ok symbol then ((false, "下單失敗"), st)
  else
    let quantity := resolve_order_quantity cfg st.ts.available_balance price quantity?
    let stop_loss := calculate_stop_loss s (env.dyn_open symbol) .LONG price
    let take_profit := calculate_take_profit s (env.dyn_open symbol) .LONG price
    let position_id := "LONG_" ++ symbol ++ "_" ++ env.time_str
    let position : TradingPosition :=
      { position_id := position_id
        symbol := symbol
        position_type := .LONG
        entry_price := price
        quantity := quantity
        stop_loss := stop_loss
        take_profit := take_profit
        status := PStatus.OPEN
        created_at := env.time_str
        pnl := 0
        leverage := cfg.default_leverage
        order_id := env.futures_order_id symbol
        exit_price := 0
        closed_at := ""
        close_reason := "" }
    let ts' := { st.ts with
      positions := dictInsert st.ts.positions position_id position
      position_count := st.ts.position_count + 1 }
    let stops' := (update_position_stop_loss s (env.stop_call position_id) st.stops
      position_id symbol .LONG price price).2
    ((true, "✅ 開多倉成功"), { ts := ts', stops := stops' })

/-- `TradingSystem.open_short_position`, the SHORT mirror of
`open_long_position`; it performs no `max_positions` check either. -/
def open_short_position (cfg : TradingConfig) (s : StopSettings) (env : GatewayEnv)
    (st : SysState) (symbol : String) (price : ℚ) (quantity? : Option ℚ) :
    (Bool × String) × SysState :=
  if resolve_order_quantity cfg st.ts.available_balance price quantity? ≤ 0 then
    ((false, "計算的倉位大小無效"), st)
  else if !env.futures_order_ok symbol then ((false, "下單失敗"), st)
  else
    let quantity := resolve_order_quantity cfg st.ts.available_balance price quantity?
    let stop_loss := calculate_stop_loss s (env.dyn_open symbol) .SHORT price
    let take_profit := calculate_take_profit s (env.dyn_open symbol) .SHORT price
    let position_id := "SHORT_" ++ symbol ++ "_" ++ env.time_str
    let position : TradingPosition :=
      { position_id := position_id
        symbol := symbol
        position_type := .SHORT
        entry_price := price
        quantity := quantity
        stop_loss := stop_loss
        take_profit := take_profit
        status := PStatus.OPEN
        created_at := env.time_str
        pnl := 0
        leverage := cfg.default_leverage
        order_id := env.futures_order_id symbol
        exit_price := 0
        closed_at := ""
        close_reason := "" }
    let ts' := { st.ts with
      positions := dictInsert st.ts.positions position_id position
      position_count := st.ts.position_count + 1 }
    let stops' := (update_position_stop_loss s (env.stop_call position_id) st.stops
      position_id symbol .SHORT price price).2
    ((true, "✅ 開空倉成功"), { ts := ts', stops := stops' })

/-- A fresh `SpotHolding` as created by `spot_buy` for a previously
unheld symbol (the dataclass defaults). -/
def emptySpotHolding (symbol : String) : SpotHolding :=
  { symbol := symbol, quantity := 0, avg_price := 0, total_cost := 0
    last_buy_price := 0, last_buy_time := "", last_sell_price := 0, last_sell_time := "" }

/-- `TradingSystem.spot_buy`: balance and minimum-amount guards, gateway
order, average-cost holding update, fee-inclusive balance decrement. -/
def spot_buy (cfg : TradingConfig) (env : GatewayEnv) (st : SysState)
    (symbol : String) (price : ℚ) (quantity? : Option ℚ) :
    (Bool × String) × SysState :=
  let quantity :=
    match quantity? with
    | none => calculate_spot_position_size cfg st.ts.available_balance price
    | some q => if q = 0 then calculate_spot_position_size cfg st.ts.available_balance price else q
  let total_cost := quantity * price
  if st.ts.available_balance < total_cost then ((false, "❌ 資金不足"), st)
  else if total_cost < cfg.min_spot_amount then ((false, "❌ 交易金額低於最小值"), st)
  else if !env.spot_order_ok symbol then ((false, "❌ 下單失敗"), st)
  else
    let fee := total_cost * cfg.spot_trading_fee
    let current_holding :=
      match st.ts.spot_holdings symbol with
      | some h => h
      | none => emptySpotHolding symbol
    let total_quantity := current_holding.quantity + quantity
    let total_cost_new := current_holding.total_cost + total_cost
    let avg_price := if 0 < total_quantity then total_cost_new / total_quantity else 0
    let holding' : SpotHolding :=
      { symbol := symbol, quantity := total_quantity, avg_price := avg_price
        total_cost := total_cost_new, last_buy_price := price
        last_buy_time := env.time_str, last_sell_price := 0, last_sell_time := "" }
    let ts' := { st.ts with
      spot_holdings := fun k => if k = symbol then some holding' else st.ts.spot_holdings k
      available_balance := st.ts.available_balance - (total_cost + fee) }
    ((true, "✅ 現貨買入成功"), { st with ts := ts' })

/-- `TradingSystem.spot_sell`: holding guards, gateway order, pro-rata
cost-basis reduction, proceeds minus fee credited, `balance` set to
`available_balance` ("simplified handling" per the source comment), daily
P&L updated with the net realized P&L. -/
def spot_sell (cfg : TradingConfig) (env : GatewayEnv) (st : SysState)
    (symbol : String) (price : ℚ) (quantity? : Option ℚ) :
    (Bool × String) × SysState :=
  match st.ts.spot_holdings symbol with
  | none => ((false, "❌ 沒有持倉"), st)
  | some holding =>
    if holding.quantity ≤ 0 then ((false, "❌ 沒有持倉"), st)
    else
      let quantity := match quantity? with | none => holding.quantity | some q => q
      if holding.quantity < quantity then ((false, "❌ 賣出數量超過持倉"), st)
      else if !env.spot_order_ok symbol then ((false, "❌ 下單失敗"), st)
      else
        let pnl := (price - holding.avg_price) * quantity
        let fee := quantity * price * cfg.spot_trading_fee
        let net_pnl := pnl - fee
        let remaining_quantity := holding.quantity - quantity
        let remaining_cost := holding.total_cost * (remaining_quantity / holding.quantity)
        let holding' : SpotHolding :=
          { symbol := symbol, quantity := remaining_quantity
            avg_price := if 0 < remaining_quantity then remaining_cost / remaining_quantity else 0
            total_cost := remaining_cost, last_buy_price := 0, last_buy_time := ""
            last_sell_price := price, last_sell_time := env.time_str }
        let avail' := st.ts.available_balance + (quantity * price - fee)
        let ts' := { st.ts with
          spot_holdings := fun k => if k = symbol then some holding' else st.ts.spot_holdings k
          available_balance := avail'
          balance := avail'
          daily_pnl := st.ts.daily_pnl + net_pnl }
        ((true, "✅ 現貨賣出成功"), { st with ts := ts' })

/-- Python truthiness of an optional price (`signal == 'LONG' and
current_price`): `None` and `0.0` are both falsy. -/
def py_truthy_price (o : Option ℚ) : Option ℚ :=
  match o with
  | none => none
  | some x => if x = 0 then none else some x

/-- `TradingSystem._execute_futures_strategy`: walks the first three
futures pairs, re-checking `_can_execute_trade` before each.  The
source's `break` is modelled as a skip: when the guard fails the state is
left unchanged, so the guard keeps failing for the remaining pairs and
the two behaviours coincide.  Signals come from
`_get_trading_signal_with_confidence` (SMC recommendation with a
random-technical fallback — I/O, hence `env.signal`). -/
def execute_futures_strategy (cfg : TradingConfig) (s : StopSettings)
    (env : GatewayEnv) (st : SysState) : SysState :=
  (cfg.futures_pairs.take 3).foldl (fun st symbol =>
    if !can_execute_trade cfg st.ts env.now then st
    else
      match (env.signal symbol).1, py_truthy_price (env.price symbol) with
      | .LONG, some price =>
        let r := open_long_position cfg s env st symbol price none
        if r.1.1 then
          { r.2 with ts := { r.2.ts with
              last_trade_time := some env.now
              total_trades_today := r.2.ts.total_trades_today + 1 } }
        else r.2
      | .SHORT, some price =>
        let r := open_short_position cfg s env st symbol price none
        if r.1.1 then
          { r.2 with ts := { r.2.ts with
              last_trade_time := some env.now
              total_trades_today := r.2.ts.total_trades_today + 1 } }
        else r.2
      | _, _ => st) st

/-- `TradingSystem._execute_spot_strategy`: walks the first three spot
pairs (with no `_can_execute_trade` guard); buys when LONG-signalled and
flat, sells the whole holding when SHORT-signalled and long. -/
def execute_spot_strategy (cfg : TradingConfig) (env : GatewayEnv)
    (st : SysState) : SysState :=
  (cfg.spot_pairs.take 3).foldl (fun st symbol =>
    match (env.signal symbol).1, py_truthy_price (env.price symbol) with
    | .LONG, some price =>
      let flat :=
        match st.ts.spot_holdings symbol with
        | none => true
        | some h => decide (h.quantity = 0)
      if flat then
        let r := spot_buy cfg env st symbol price none
        if r.1.1 then
          { r.2 with ts := { r.2.ts with
              last_trade_time := some env.now
              total_trades_today := r.2.ts.total_trades_today + 1 } }
        else r.2
      else st
    | .SHORT, some price =>
      match st.ts.spot_holdings symbol with
      | some h =>
        if 0 < h.quantity then
          let r := spot_sell cfg env st symbol price (some h.quantity)
          if r.1.1 then
            { r.2 with ts := { r.2.ts with
                last_trade_time := some env.now
                total_trades_today := r.2.ts.total_trades_today + 1 } }
          else r.2
        else st
      | none => st
    | _, _ => st) st

/-- `TradingSystem._execute_trading_strategy`: dispatch on
`trading_mode` and the per-market enable flags. -/
def execute_trading_strategy (cfg : TradingConfig) (s : StopSettings)
    (env : GatewayEnv) (st : SysState) : SysState :=
  let st :=
    if (cfg.trading_mode = .both ∨ cfg.trading_mode = .futures) ∧ cfg.futures_enabled then
      execute_futures_strategy cfg s env st
    else st
  if (cfg.trading_mode = .both ∨ cfg.trading_mode = .spot) ∧ cfg.spot_enabled then
    execute_spot_strategy cfg env st
  else st

/-- `TradingSystem.stop_auto_trading`: clears the `auto_trading` flag
(its later `thread.join` and notification steps do not touch the modelled
state, and its "not running" early return changes nothing). -/
def stop_auto_trading (st : SysState) : SysState :=
  if !st.ts.auto_trading then st
  else { st with ts := { st.ts with auto_trading := false } }

/-- `TradingSystem._update_account_info`: refresh balances from the
gateway snapshot, reset the daily statistics on a new trading day
(`_check_daily_reset`), and refresh every Open position's unrealized P&L
(`_update_positions_pnl`). -/
def update_account_info (cfg : TradingConfig) (env : GatewayEnv)
    (st : SysState) : SysState :=
  let ts :=
    match env.balance_info with
    | some bi => { st.ts with balance := bi.1, available_balance := bi.2 }
    | none => st.ts
  let ts :=
    if env.is_new_day then
      { ts with daily_pnl := 0, today_start_balance := ts.balance, total_trades_today := 0 }
    else ts
  let ts := { ts with positions := ts.positions.map (fun p =>
    if p.2.status = PStatus.OPEN then
      match env.price p.2.symbol with
      | some cp => (p.1, { p.2 with pnl := calculate_position_pnl cfg p.2 cp })
      | none => p
    else p) }
  { st with ts := ts }

/-- `TradingSystem._cleanup_old_data`: keep only the 100 most recently
closed positions, dropping the oldest by `closed_at` (Python's stable
sort, hence `insertionSort`).  The price-cache eviction it also performs
is not modelled: prices are environment queries here. -/
def cleanup_old_data (st : SysState) : SysState :=
  let closed := st.ts.positions.filter (fun p => decide (p.2.status = PStatus.CLOSED))
  if 100 < closed.length then
    let sorted := closed.insertionSort (fun a b => a.2.closed_at ≤ b.2.closed_at)
    let stale : List String := (sorted.take (closed.length - 100)).map (·.1)
    let kept := st.ts.positions.filter (fun p => !(decide (p.1 ∈ stale)))
    { st with ts := { st.ts with positions := kept } }
  else st

/-- `TradingSystem._check_position_stops`: for every Open position with
an available ticker price, refresh its unrealized P&L, evaluate
`_should_close_position` against the *pre-update* stop fields, then ask
the stop engine for an updated stop and store it; finally close every
collected position with reason `STOP_LOSS`.  The fold re-reads each
position from the current book, matching the source's in-place mutation
of dict values during iteration (no keys are added or removed by the
loop body). -/
def check_position_stops (cfg : TradingConfig) (s : StopSettings)
    (env : GatewayEnv) (st : SysState) : SysState :=
  let scan := st.ts.positions.foldl
    (fun (acc : SysState × List String) entry =>
      let pid := entry.1
      match dictLookup acc.1.ts.positions pid with
      | none => acc
      | some position =>
        if position.status ≠ PStatus.OPEN then acc
        else
          match env.price position.symbol with
          | none => acc
          | some current_price =>
            let position₁ :=
              { position with pnl := calculate_position_pnl cfg position current_price }
            let close? := should_close_position acc.1.stops position₁ current_price
            let upd := update_position_stop_loss s (env.stop_call pid) acc.1.stops pid
              position.symbol position.position_type position.entry_price current_price
            let position₂ := { position₁ with stop_loss := upd.1 }
            let st' : SysState :=
              { ts := { acc.1.ts with positions := dictInsert acc.1.ts.positions pid position₂ }
                stops := upd.2 }
            (st', if close? then acc.2 ++ [pid] else acc.2))
    ((st, []) : SysState × List String)
  scan.2.foldl (fun st pid => (close_position cfg env st pid "STOP_LOSS").2) scan.1

/-- One iteration of `TradingSystem._auto_trading_loop` together with its
`while self.auto_trading` guard: account refresh every 10th tick, the
risk-limit check that calls `stop_auto_trading` and skips the rest of the
tick when it fires, stop management, the entry path guarded by
`_can_execute_trade`, and data cleanup every 30th tick. -/
def auto_trading_tick (cfg : TradingConfig) (s : StopSettings) (env : GatewayEnv)
    (loop_count : Nat) (st : SysState) : SysState :=
  if !st.ts.auto_trading then st
  else
    let st := if loop_count % 10 = 0 then update_account_info cfg env st else st
    if check_risk_limits cfg st.ts then stop_auto_trading st
    else
      let st := check_position_stops cfg s env st
      let st :=
        if can_execute_trade cfg st.ts env.now then execute_trading_strategy cfg s env st
        else st
      if loop_count % 30 = 0 then cleanup_old_data st else st

/-- A retained, already-Closed position for the C10 witness. -/
def c10Position : TradingPosition :=
  { position_id := "LONG_BTC-USDT-SWAP_1", symbol := "BTC-USDT-SWAP"
    position_type := .LONG, entry_price := 100, quantity := 1, stop_loss := 98
    take_profit := 104, status := PStatus.CLOSED, created_at := "1", pnl := 2
    leverage := 1, order_id := "", exit_price := 102, closed_at := "2"
    close_reason := "MANUAL" }

/-- A state whose book holds one Closed position and no Open ones. -/
def c10State : TradingState :=
  { balance := 1000, available_balance := 1000
    positions := [("LONG_BTC-USDT-SWAP_1", c10Position)]
    spot_holdings := fun _ => none, daily_pnl := 0, today_start_balance := 1000
    position_count := 1, total_trades_today := 0, auto_trading := false
    last_trade_time := none }

/-- A configuration with `max_positions = 1`. -/
def c10Config : TradingConfig := { defaultTradingConfig with max_positions := 1 }

/-- The position-size formula C6 claims, written from the spec's words:
`riskAmount = availableBalance × riskPercent`; `size = riskAmount /
priceDistanceToStop`; capped so the position does not exceed the
max-position-size fraction of balance; floored at the exchange minimum. -/
def spec_position_size_claimed (available_balance risk_percent entry_price
    stop_price max_position_size min_size : ℚ) : ℚ :=
  let risk_amount := available_balance * risk_percent
  let size := risk_amount / |entry_price - stop_price|
  max (min size (available_balance * max_position_size / entry_price)) min_size

/-- The formula the source actually implements, written from the amended
claim's words: the risk amount is divided by the *entry price* (the
function does not even receive a stop price), capped by the
max-position-size fraction, floored at the constant minimum 0.001. -/
def spec_position_size_amended (available_balance risk_percent price
    max_position_size : ℚ) : ℚ :=
  max (min ((available_balance * risk_percent) / price)
    (available_balance * max_position_size / price)) (1/1000)

/-- A stop-engine call environment in which both database reads come back
empty (no candles for the symbol) and no exception occurs. -/
def noMarketStopCall : StopCallEnv :=
  { internal_error := false
    dyn := { error := false, ohlcv_empty := true, atr := 0, volatility := 0 }
    trail := { error := false, ohlcv_empty := true, atr := 0 } }

/-- A gateway environment that answers every query successfully: ticker
price 90 for every symbol, orders and closes accepted. -/
def c8Env : GatewayEnv :=
  { now := 1000, time_str := "1000"
    price := fun _ => some 90
    futures_close_ok := fun _ => true
    futures_order_ok := fun _ => true
    futures_order_id := fun _ => "oid"
    spot_order_ok := fun _ => true
    signal := fun _ => (.HOLD, 0)
    stop_call := fun _ => noMarketStopCall
    dyn_open := fun _ => { error := false, ohlcv_empty := true, atr := 0, volatility := 0 }
    balance_info := none
    is_new_day := false }

/-- An Open LONG position used by the C8 witness. -/
def c8OpenPosition : TradingPosition :=
  { position_id := "o1", symbol := "BTC-USDT-SWAP", position_type := .LONG
    entry_price := 100, quantity := 1, stop_loss := 98, take_profit := 104
    status := PStatus.OPEN, created_at := "1", pnl := 0, leverage := 1
    order_id := "", exit_price := 0, closed_at := "", close_reason := "" }

/-- An already-Closed position used by the C8 witness. -/
def c8ClosedPosition : TradingPosition :=
  { position_id := "c1", symbol := "ETH-USDT-SWAP", position_type := .LONG
    entry_price := 50, quantity := 1, stop_loss := 49, take_profit := 52
    status := PStatus.CLOSED, created_at := "1", pnl := 1, leverage := 1
    order_id := "", exit_price := 51, closed_at := "2", close_reason := "MANUAL" }

/-- A book holding one Open and one Closed position. -/
def c8State : SysState :=
  { ts := { balance := 1000, available_balance := 1000
            positions := [("o1", c8OpenPosition), ("c1", c8ClosedPosition)]
            spot_holdings := fun _ => none, daily_pnl := 0, today_start_balance := 1000
            position_count := 2, total_trades_today := 0, auto_trading := false
            last_trade_time := none }
    stops := emptyStops }

/-- A configuration with `max_positions = 1` for the C3 scenario. -/
def c3Config : TradingConfig := { defaultTradingConfig with max_positions := 1 }

/-- An Open LONG position already held in the C3 scenario. -/
def c3OpenPosition : TradingPosition :=
  { position_id := "A", symbol := "BTC-USDT-SWAP", position_type := .LONG
    entry_price := 100, quantity := 1, stop_loss := 98, take_profit := 104
    status := PStatus.OPEN, created_at := "1", pnl := 0, leverage := 1
    order_id := "", exit_price := 0, closed_at := "", close_reason := "" }

/-- A state already holding one Open position (the `max_positions = 1`
budget is exhausted). -/
def c3State : SysState :=
  { ts := { balance := 1000, available_balance := 1000
            positions := [("A", c3OpenPosition)]
            spot_holdings := fun _ => none, daily_pnl := 0, today_start_balance := 1000
            position_count := 1, total_trades_today := 0, auto_trading := false
            last_trade_time := none }
    stops := emptyStops }

/-- An empty-book state from which the guarded entry path may trade. -/
def c3EmptyState : SysState :=
  { ts := { balance := 1000, available_balance := 1000
            positions := []
            spot_holdings := fun _ => none, daily_pnl := 0, today_start_balance := 1000
            position_count := 0, total_trades_today := 0, auto_trading := false
            last_trade_time := none }
    stops := emptyStops }

/-- The configuration of Scenario D: defaults, `max_daily_loss = 0.05`. -/
def c2Config : TradingConfig := defaultTradingConfig

/-- An Open LONG position whose stop (95) is crossed by the current
ticker price 90, so the claim expects the loop to close it. -/
def c2Position : TradingPosition :=
  { position_id := "p1", symbol := "BTC-USDT-SWAP", position_type := .LONG
    entry_price := 100, quantity := 1, stop_loss := 95, take_profit := 0
    status := PStatus.OPEN, created_at := "1", pnl := 0, leverage := 1
    order_id := "", exit_price := 0, closed_at := "", close_reason := "" }

/-- Scenario D's risk state: `dailyRealizedPnl = -6` on
`dayStartBalance = 100` (6% ≥ the 5% limit), auto-trading running, one
Open position with its stop crossed. -/
def c2State : SysState :=
  { ts := { balance := 100, available_balance := 100
            positions := [("p1", c2Position)]
            spot_holdings := fun _ => none, daily_pnl := -6, today_start_balance := 100
            position_count := 1, total_trades_today := 0, auto_trading := true
            last_trade_time := none }
    stops := emptyStops }

/-! ## SMCStrategy (`modules/smc_strategy.py`) -/

/-- One OHLCV candle of the `ohlcv_data` list handed to
`calculate_smc_levels` (`[timestamp, open, high, low, close, volume]`;
the open price is `open_price` because `open` is a Lean keyword). -/
structure OhlcvBar where
  timestamp : ℚ
  open_price : ℚ
  high : ℚ
  low : ℚ
  close : ℚ
  volume : ℚ
deriving DecidableEq

/-- A support/resistance level dict `{price, strength, ...}` as the
scanner consumes it (`level['price']`, `level.get('strength', 0.5)`). -/
structure Level where
  price : ℚ
  strength : ℚ
deriving DecidableEq

/-- The `smc_data` dict assembled by `calculate_smc_levels`, restricted
to the fields its consumer `SMCScanner` reads: `current_price`,
`market_structure['trend']['score']`,
`market_structure['volume_profile']['status']`,
`market_structure['volatility']`, the two signal-list lengths, `bias`,
`confidence`, and the two level lists. -/
structure SmcData where
  current_price : ℚ
  trend_score : ℚ
  volume_status : String
  volatility : ℚ
  buy_signal_count : Nat
  sell_signal_count : Nat
  bias : String
  confidence : ℚ
  support_levels : List Level
  resistance_levels : List Level
deriving DecidableEq

/-- `SMCStrategy.calculate_smc_levels`, the analyzer entry point.  The
insufficient-data guard `if not ohlcv_data or len(ohlcv_data) < 100:
return None` is explicit (`None` input is the empty list, covered by the
length test).  The downstream analysis — pandas/talib indicators, level
extraction, market structure, signal generation, all floating-point and
database I/O — is the `analysis` oracle; `analysis = none` models the
body's `except` path, which also returns `None`. -/
def calculate_smc_levels (ohlcv_data : List OhlcvBar)
    (analysis : Option SmcData) : Option SmcData :=
  if ohlcv_data.length < 100 then none
  else analysis

/-! ## SMCScanner (`modules/smc_scanner.py`) -/

/-- The scanner's configuration dict reads (`max_concurrent_scans`,
`min_confidence`, `risk_levels.high`, `risk_levels.medium`) with their
defaults. -/
structure ScannerConfig where
  max_concurrent_scans : Nat
  min_confidence : ℚ
  risk_high : ℚ
  risk_medium : ℚ

/-- The scanner defaults: 5 workers, threshold 0.7, risk tiers 0.9/0.7. -/
def defaultScannerConfig : ScannerConfig :=
  { max_concurrent_scans := 5, min_confidence := 7/10, risk_high := 9/10
    risk_medium := 7/10 }

/-- An entry/stop/target point dict built by the `find_*_points`
helpers: price, strength, a kind label, and the
distance/risk/reward percentage (the key name differs per kind; one
field serves all three). -/
structure ScanPoint where
  price : ℚ
  strength : ℚ
  kind : String
  pct : ℚ
deriving DecidableEq

/-- The opportunity dict built by `analyze_trading_opportunity`
(the wall-clock `timestamp` and the full `market_structure` snapshot are
not modelled; nothing the claims mention reads them). -/
structure Opportunity where
  symbol : String
  timeframe : String
  current_price : ℚ
  trade_direction : String
  signal_strength : ℚ
  risk_level : String
  confidence : ℚ
  bias : String
  entry_points : List ScanPoint
  stop_loss_points : List ScanPoint
  take_profit_points : List ScanPoint
  reward_risk_ratio : ℚ
  volume_status : String
  volatility : ℚ
  key_support : List Level
  key_resistance : List Level
deriving DecidableEq

/-- `SMCScanner.calculate_signal_strength`: the weighted blend
{confidence 0.3, trend 0.25, level clarity 0.2, volume 0.15, signal
count 0.1}, clamped to 1. -/
def calculate_signal_strength (smc : SmcData) : ℚ :=
  let confidence := smc.confidence
  let trend_factor := |smc.trend_score| / 3
  let level_clarity :=
    min (((smc.support_levels.length + smc.resistance_levels.length : Nat) : ℚ) / 6) 1
  let volume_factor : ℚ :=
    if smc.volume_status = "異常大量" ∨ smc.volume_status = "放量" then 1 else 1/2
  let signal_factor :=
    min (((smc.buy_signal_count + smc.sell_signal_count : Nat) : ℚ) / 4) 1
  min (confidence * (3/10) + trend_factor * (25/100) + level_clarity * (2/10) +
    volume_factor * (15/100) + signal_factor * (1/10)) 1

/-- `SMCScanner.determine_trade_direction`. -/
def determine_trade_direction (bias : String) (buy_count sell_count : Nat) : String :=
  if bias = "偏多" ∧ sell_count < buy_count then "做多"
  else if bias = "偏空" ∧ buy_count < sell_count then "做空"
  else "觀望"

/-- `SMCScanner.calculate_risk_level` (the volatility it also fetches is
never used in the branching). -/
def calculate_risk_level (cfg : ScannerConfig) (smc : SmcData) : String :=
  let signal_strength := calculate_signal_strength smc
  if cfg.risk_high ≤ signal_strength then "低風險"
  else if cfg.risk_medium ≤ signal_strength then "中風險"
  else "高風險"

/-- `SMCScanner.find_entry_points`: levels on the favorable side within
2%, strongest two first (Python's stable sort).  A zero current price
would raise `ZeroDivisionError` in `distance_pct`, caught by the
method's `except` returning `[]`; returning `[]` for a zero price is
observationally identical. -/
def find_entry_points (current_price : ℚ) (smc : SmcData) (direction : String) :
    List ScanPoint :=
  if current_price = 0 then []
  else if direction = "做多" then
    let pts := (smc.support_levels.take 3).filterMap (fun level =>
      if current_price ≤ level.price * (102/100) then
        some { price := level.price, strength := level.strength, kind := "支撐位買入"
               pct := |current_price - level.price| / current_price }
      else none)
    (pts.insertionSort (fun a b => b.strength ≤ a.strength)).take 2
  else if direction = "做空" then
    let pts := (smc.resistance_levels.take 3).filterMap (fun level =>
      if level.price * (98/100) ≤ current_price then
        some { price := level.price, strength := level.strength, kind := "阻力位賣出"
               pct := |current_price - level.price| / current_price }
      else none)
    (pts.insertionSort (fun a b => b.strength ≤ a.strength)).take 2
  else []

/-- `SMCScanner.find_stop_loss_points`: protective levels beyond the
position, smallest risk first, two best. -/
def find_stop_loss_points (current_price : ℚ) (smc : SmcData) (direction : String) :
    List ScanPoint :=
  if current_price = 0 then []
  else if direction = "做多" then
    let pts := smc.support_levels.filterMap (fun level =>
      if level.price < current_price then
        some { price := level.price * (99/100), strength := level.strength
               kind := "支撐止損"
               pct := (current_price - level.price * (99/100)) / current_price }
      else none)
    (pts.insertionSort (fun a b => a.pct ≤ b.pct)).take 2
  else if direction = "做空" then
    let pts := smc.resistance_levels.filterMap (fun level =>
      if current_price < level.price then
        some { price := level.price * (101/100), strength := level.strength
               kind := "阻力止損"
               pct := (level.price * (101/100) - current_price) / current_price }
      else none)
    (pts.insertionSort (fun a b => a.pct ≤ b.pct)).take 2
  else []

/-- `SMCScanner.find_take_profit_points`: reward levels beyond the
position, largest reward first, three best. -/
def find_take_profit_points (current_price : ℚ) (smc : SmcData) (direction : String) :
    List ScanPoint :=
  if current_price = 0 then []
  else if direction = "做多" then
    let pts := smc.resistance_levels.filterMap (fun level =>
      if current_price < level.price then
        some { price := level.price, strength := level.strength, kind := "阻力止盈"
               pct := (level.price - current_price) / current_price }
      else none)
    (pts.insertionSort (fun a b => b.pct ≤ a.pct)).take 3
  else if direction = "做空" then
    let pts := smc.support_levels.filterMap (fun level =>
      if level.price < current_price then
        some { price := level.price, strength := level.strength, kind := "支撐止盈"
               pct := (current_price - level.price) / current_price }
      else none)
    (pts.insertionSort (fun a b => b.pct ≤ a.pct)).take 3
  else []

/-- Round half to even at the integers, the core of Python's `round`. -/
def round_half_even (x : ℚ) : ℤ :=
  if x - Int.floor x < 1/2 then Int.floor x
  else if (1/2 : ℚ) < x - Int.floor x then Int.floor x + 1
  else if Int.floor x % 2 = 0 then Int.floor x else Int.floor x + 1

/-- Python's `round(x, 2)` on our exact rationals: round half to even at
two decimals.  (CPython rounds the nearest binary double, which can
differ in the last ulp on values that are not exactly representable; no
claim depends on the rounded digits.) -/
def py_round_2 (x : ℚ) : ℚ := (round_half_even (x * 100) : ℚ) / 100

/-- `SMCScanner.calculate_reward_risk_ratio`: best candidate of each
kind; 0 when any list is empty or the risk is zero. -/
def calculate_reward_risk_ratio (entry_points stop_loss_points take_profit_points :
    List ScanPoint) : ℚ :=
  match entry_points, stop_loss_points, take_profit_points with
  | e :: _, s :: _, t :: _ =>
    let risk := if s.price < e.price then e.price - s.price else s.price - e.price
    let reward := if s.price < e.price then t.price - e.price else e.price - t.price
    if risk = 0 then 0 else py_round_2 (reward / risk)
  | _, _, _ => 0

/-- `SMCScanner.analyze_trading_opportunity`: derives one opportunity
dict from an instrument's `smc_data`. -/
def analyze_trading_opportunity (cfg : ScannerConfig) (pair : String)
    (smc : SmcData) (timeframe : String) : Opportunity :=
  let current_price := smc.current_price
  let signal_strength := calculate_signal_strength smc
  let trade_direction :=
    determine_trade_direction smc.bias smc.buy_signal_count smc.sell_signal_count
  let entry_points := find_entry_points current_price smc trade_direction
  let stop_loss_points := find_stop_loss_points current_price smc trade_direction
  let take_profit_points := find_take_profit_points current_price smc trade_direction
  { symbol := pair
    timeframe := timeframe
    current_price := current_price
    trade_direction := trade_direction
    signal_strength := signal_strength
    risk_level := calculate_risk_level cfg smc
    confidence := smc.confidence
    bias := smc.bias
    entry_points := entry_points
    stop_loss_points := stop_loss_points
    take_profit_points := take_profit_points
    reward_risk_ratio :=
      calculate_reward_risk_ratio entry_points stop_loss_points take_profit_points
    volume_status := smc.volume_status
    volatility := smc.volatility
    key_support := smc.support_levels.take 3
    key_resistance := smc.resistance_levels.take 3 }

/-- One instrument's scan-task inputs: the candles `get_ohlcv(pair, tf,
200)` returned (`None` is the empty list), the analyzer's downstream
outcome, and an `error` flag for an exception or timeout in the task
(caught per future by `scan_all_pairs`, or inside `scan_single_pair`
itself — both drop the pair). -/
structure PairEnv where
  error : Bool
  ohlcv : List OhlcvBar
  analysis : Option SmcData

/-- `SMCScanner.scan_single_pair`: data guard, analyzer call, opportunity
derivation; `None` on insufficient data, a failed analysis or an
exception. -/
def scan_single_pair (cfg : ScannerConfig) (env : PairEnv) (pair : String) :
    Option Opportunity :=
  if env.error then none
  else if env.ohlcv.length < 100 then none
  else
    match calculate_smc_levels env.ohlcv env.analysis with
    | none => none
    | some smc => some (analyze_trading_opportunity cfg pair smc "4H")

/-- `SMCScanner.get_all_perpetual_pairs`: the hard-coded universe. -/
def get_all_perpetual_pairs : List String :=
  ["BTC-USDT-SWAP", "ETH-USDT-SWAP", "SOL-USDT-SWAP",
   "ADA-USDT-SWAP", "DOT-USDT-SWAP", "XRP-USDT-SWAP",
   "LTC-USDT-SWAP", "BNB-USDT-SWAP", "AVAX-USDT-SWAP",
   "MATIC-USDT-SWAP", "LINK-USDT-SWAP", "UNI-USDT-SWAP",
   "DOGE-USDT-SWAP", "ATOM-USDT-SWAP", "NEAR-USDT-SWAP",
   "ALGO-USDT-SWAP", "FIL-USDT-SWAP", "ETC-USDT-SWAP",
   "XLM-USDT-SWAP", "EOS-USDT-SWAP", "XTZ-USDT-SWAP",
   "AAVE-USDT-SWAP", "SUSHI-USDT-SWAP", "MKR-USDT-SWAP",
   "COMP-USDT-SWAP", "YFI-USDT-SWAP", "SNX-USDT-SWAP",
   "SAND-USDT-SWAP", "MANA-USDT-SWAP", "ENJ-USDT-SWAP",
   "GALA-USDT-SWAP", "APE-USDT-SWAP", "GMT-USDT-SWAP",
   "IMX-USDT-SWAP", "RNDR-USDT-SWAP", "OP-USDT-SWAP",
   "ARB-USDT-SWAP", "APT-USDT-SWAP", "SUI-USDT-SWAP"]

/-- `if not pairs:` — a `None` or empty argument selects the full
universe. -/
def effective_pairs (pairs? : Option (List String)) : List String :=
  match pairs? with
  | none => get_all_perpetual_pairs
  | some ps => if ps = [] then get_all_perpetual_pairs else ps

/-- The dict `scan_all_pairs` returns: aggregate counts, the local (and
therefore *unsorted*) high-confidence list, and the per-pair success
results.  The report has no per-instrument failure slot of any kind:
failed pairs are only written to the log. -/
structure ScanReport where
  total_scanned : Nat
  successful_scans : Nat
  high_confidence_signals : List Opportunity
  results : List (String × Opportunity)
deriving DecidableEq

/-- The fan-in body of `scan_all_pairs`: one `as_completed` step.
Successes land in the `results` dict and, when at or above the
threshold, are appended to the local `high_confidence_signals` list;
failures (`None`, exception, timeout) leave both untouched. -/
def scan_collect_step (cfg : ScannerConfig) (env : String → PairEnv)
    (acc : List (String × Opportunity) × List Opportunity) (pair : String) :
    List (String × Opportunity) × List Opportunity :=
  match scan_single_pair cfg (env pair) pair with
  | none => acc
  | some r =>
    (dictInsert acc.1 pair r,
     if cfg.min_confidence ≤ r.signal_strength then acc.2 ++ [r] else acc.2)

/-- `SMCScanner.scan_all_pairs`.  The worker pool evaluates every pair
independently; `completion_order` is the order in which `as_completed`
yields the futures — an arbitrary permutation of the submitted pairs.
`orchestrator_error` is the method's own outer `except`, which returns
the empty dict (`none` here).  Note the returned dict carries the
*local* `high_confidence_signals` (unsorted); only the attribute
`self.high_confidence_signals` receives the sorted copy, modelled by
`stored_high_confidence_signals` below. -/
def scan_all_pairs (cfg : ScannerConfig) (env : String → PairEnv)
    (orchestrator_error : Bool) (pairs? : Option (List String))
    (completion_order : List String) : Option ScanReport :=
  if orchestrator_error then none
  else
    let pairs := effective_pairs pairs?
    let collected := completion_order.foldl (scan_collect_step cfg env) ([], [])
    some { total_scanned := pairs.length
           successful_scans := collected.1.length
           high_confidence_signals := collected.2
           results := collected.1 }

/-- The value `scan_all_pairs` stores into the attribute
`self.high_confidence_signals` (source line 400): the threshold-filtered
list sorted descending by `signal_strength` — `sorted(...,
key=signal_strength, reverse=True)`, a stable sort, so ties keep
completion order; no tie-break by instrument name exists. -/
def stored_high_confidence_signals (report : ScanReport) : List Opportunity :=
  report.high_confidence_signals.insertionSort
    (fun a b => b.signal_strength ≤ a.signal_strength)

/-- A flat candle for history fixtures. -/
def testBar : OhlcvBar :=
  { timestamp := 0, open_price := 0, high := 0, low := 0, close := 0, volume := 0 }

/-- A downstream analysis outcome for the C9 witness. -/
def c9Analysis : SmcData :=
  { current_price := 100, trend_score := 0, volume_status := "正常", volatility := 0
    buy_signal_count := 0, sell_signal_count := 0, bias := "中性", confidence := 1/2
    support_levels := [], resistance_levels := [] }

/-- A pair environment whose scan fails for want of data. -/
def c4FailPairEnv : PairEnv := { error := false, ohlcv := [], analysis := none }

/-- The weaker of the two high-confidence instruments: signal strength
exactly 0.7 (confidence 2/3, full trend score, volume surge, four
signals, no levels). -/
def c5DataA : SmcData :=
  { current_price := 100, trend_score := 3, volume_status := "放量", volatility := 0
    buy_signal_count := 4, sell_signal_count := 0, bias := "中性", confidence := 2/3
    support_levels := [], resistance_levels := [] }

/-- The stronger instrument: confidence 1, signal strength 0.8. -/
def c5DataB : SmcData := { c5DataA with confidence := 1 }

/-- Per-pair environments for the C5 scenario: pair `AAA` analyses to
the weaker data, every other pair to the stronger. -/
def c5Env : String → PairEnv := fun pair =>
  if pair = "AAA" then
    { error := false, ohlcv := List.replicate 100 testBar, analysis := some c5DataA }
  else
    { error := false, ohlcv := List.replicate 100 testBar, analysis := some c5DataB }

instance : IsTotal Opportunity (fun a b => b.signal_strength ≤ a.signal_strength) :=
  ⟨fun a b => le_total b.signal_strength a.signal_strength⟩

instance : IsTrans Opportunity (fun a b => b.signal_strength ≤ a.signal_strength) :=
  ⟨fun _ _ _ h1 h2 => le_trans h2 h1⟩

/-! ## Lemmas and claim theorems -/

lemma chain'_of_chain {α : Type} {R : α → α → Prop} {p : α} {l : List α}
    (h : List.Chain R p l) : List.Chain' R l := by
  cases h with
  | nil => trivial
  | cons hr hc => exact hc

lemma volatility_factor_pos (s : StopSettings) (v : ℚ) :
    0 < calculate_volatility_factor s v := by
  unfold calculate_volatility_factor
  split_ifs <;> norm_num

lemma fixed_stop_pos (entry : ℚ) (pt : PositionType) (r : ℚ)
    (he : 0 < entry) (h0 : 0 ≤ r) (h1 : r < 1) :
    0 < calculate_fixed_stop_loss entry pt r := by
  cases pt
  · show 0 < entry * (1 - r)
    nlinarith
  · show 0 < entry * (1 + r)
    nlinarith

lemma dynamic_stop_pos (s : StopSettings) (env : DynEnv) (pt : PositionType)
    (entry : ℚ) (he : 0 < entry) (hatr : 0 ≤ env.atr)
    (hmult : 0 ≤ s.atr_multiplier) (h0 : 0 ≤ s.max_risk_per_trade)
    (h1 : s.max_risk_per_trade < 1) :
    0 < calculate_dynamic_stop_loss s env pt entry := by
  have hvf := volatility_factor_pos s env.volatility
  have hbase : 0 ≤ env.atr * s.atr_multiplier * calculate_volatility_factor s env.volatility :=
    mul_nonneg (mul_nonneg hatr hmult) (le_of_lt hvf)
  unfold calculate_dynamic_stop_loss
  split_ifs
  · exact fixed_stop_pos entry pt (2/100) he (by norm_num) (by norm_num)
  · exact fixed_stop_pos entry pt (2/100) he (by norm_num) (by norm_num)
  · exact fixed_stop_pos entry pt (2/100) he (by norm_num) (by norm_num)
  · cases pt
    · exact lt_max_of_lt_right (by nlinarith)
    · exact lt_min (by nlinarith) (by nlinarith)

lemma trailing_prev_long (s : StopSettings) (env : TrailEnv)
    (entry current prev : ℚ) :
    ∃ t, calculate_trailing_stop_loss s env .LONG entry current (some prev) = some t ∧
      prev ≤ t := by
  unfold calculate_trailing_stop_loss
  split_ifs with hA hB hC
  · exact ⟨prev, rfl, le_refl _⟩
  · exact ⟨prev, rfl, le_refl _⟩
  · exact ⟨prev, rfl, le_refl _⟩
  · by_cases h : prev < current - env.atr * s.atr_multiplier * (7/10)
    · exact ⟨current - env.atr * s.atr_multiplier * (7/10), by simp [h], le_of_lt h⟩
    · exact ⟨prev, by simp [h], le_refl _⟩

lemma trailing_prev_short (s : StopSettings) (env : TrailEnv)
    (entry current prev : ℚ) (hp : 0 < prev) (hc : 0 < current)
    (hatr : 0 ≤ env.atr) (hmult : 0 ≤ s.atr_multiplier) :
    ∃ t, calculate_trailing_stop_loss s env .SHORT entry current (some prev) = some t ∧
      t ≤ prev ∧ 0 < t := by
  have hdist : 0 ≤ env.atr * s.atr_multiplier * (7/10) := by positivity
  unfold calculate_trailing_stop_loss
  split_ifs with hA hB hC
  · exact ⟨prev, rfl, le_refl _, hp⟩
  · exact ⟨prev, rfl, le_refl _, hp⟩
  · exact ⟨prev, rfl, le_refl _, hp⟩
  · by_cases h : current + env.atr * s.atr_multiplier * (7/10) < prev
    · exact ⟨current + env.atr * s.atr_multiplier * (7/10), by simp [h], le_of_lt h, by linarith⟩
    · exact ⟨prev, by simp [h], le_refl _, hp⟩

lemma trailing_none_short (s : StopSettings) (env : TrailEnv)
    (entry current : ℚ) (he : 0 < entry)
    (hatr : 0 ≤ env.atr) (hmult : 0 ≤ s.atr_multiplier) :
    calculate_trailing_stop_loss s env .SHORT entry current none = none ∨
      ∃ t, calculate_trailing_stop_loss s env .SHORT entry current none = some t ∧ 0 < t := by
  have hdist : 0 ≤ env.atr * s.atr_multiplier * (7/10) := by positivity
  unfold calculate_trailing_stop_loss
  split_ifs with hA hB hC
  · exact Or.inl rfl
  · exact Or.inl rfl
  · exact Or.inl rfl
  · exact Or.inr ⟨entry + env.atr * s.atr_multiplier * (7/10), rfl, by linarith⟩

lemma break_even_pos (s : StopSettings) (pt : PositionType)
    (entry current th : ℚ) (he : 0 < entry) :
    ∀ v, calculate_break_even_stop s pt entry current th = some v → 0 < v := by
  intro v hv
  unfold calculate_break_even_stop at hv
  cases pt <;> split_ifs at hv <;>
    first
      | exact Option.noConfusion hv
      | (obtain rfl := Option.some_inj.mp hv
         nlinarith)

lemma pyOr_pos (o : Option ℚ) (d : ℚ) (hd : 0 < d)
    (ho : ∀ v, o = some v → 0 < v) : 0 < pyOr o d := by
  cases o with
  | none => exact hd
  | some x =>
    show 0 < if x = 0 then d else x
    split_ifs with h
    · exact hd
    · exact ho x rfl

lemma update_stop_prev_step (s : StopSettings) (env : StopCallEnv)
    (stops : StopMap) (pid sym : String) (pt : PositionType)
    (entry current : ℚ) (info : StopInfo)
    (hmult : 0 ≤ s.atr_multiplier) (h0 : 0 ≤ s.max_risk_per_trade)
    (h1 : s.max_risk_per_trade < 1) (he : 0 < entry) (hc : 0 < current)
    (hde : 0 ≤ env.dyn.atr) (hte : 0 ≤ env.trail.atr)
    (herr : env.internal_error = false)
    (hprev : stops pid = some info) (hp : 0 < info.current_stop) :
    favorable pt info.current_stop
      (update_position_stop_loss s env stops pid sym pt entry current).1 ∧
    0 < (update_position_stop_loss s env stops pid sym pt entry current).1 ∧
    ((update_position_stop_loss s env stops pid sym pt entry current).2 pid).map
        (·.current_stop) =
      some (update_position_stop_loss s env stops pid sym pt entry current).1 := by
  have hdyn := dynamic_stop_pos s env.dyn pt entry he hde hmult h0 h1
  have hbe := break_even_pos s pt entry current (1/100) he
  unfold update_position_stop_loss
  rw [herr]
  simp only [Bool.false_eq_true, if_false, hprev, Option.map_some']
  cases pt
  case LONG =>
    obtain ⟨t, ht, hpt⟩ := trailing_prev_long s env.trail entry current info.current_stop
    rw [ht]
    have htpos : 0 < t := lt_of_lt_of_le hp hpt
    have hOr : pyOr (some t) (calculate_dynamic_stop_loss s env.dyn .LONG entry) = t := by
      simp [pyOr, ne_of_gt htpos]
    simp only [hOr]
    refine ⟨?_, ?_, by simp⟩
    · exact le_trans hpt (le_max_of_le_right (le_max_left _ _))
    · exact lt_of_lt_of_le htpos (le_max_of_le_right (le_max_left _ _))
  case SHORT =>
    obtain ⟨t, ht, hpt, htpos⟩ :=
      trailing_prev_short s env.trail entry current info.current_stop hp hc hte hmult
    rw [ht]
    have hOr : pyOr (some t) (calculate_dynamic_stop_loss s env.dyn .SHORT entry) = t := by
      simp [pyOr, ne_of_gt htpos]
    simp only [hOr]
    refine ⟨?_, ?_, by simp⟩
    · exact le_trans (min_le_of_right_le (min_le_left _ _)) hpt
    · exact lt_min hdyn (lt_min htpos (pyOr_pos _ _ hdyn hbe))

lemma update_stop_first_step (s : StopSettings) (env : StopCallEnv)
    (stops : StopMap) (pid sym : String) (pt : PositionType)
    (entry current : ℚ)
    (hmult : 0 ≤ s.atr_multiplier) (h0 : 0 ≤ s.max_risk_per_trade)
    (h1 : s.max_risk_per_trade < 1) (he : 0 < entry)
    (hde : 0 ≤ env.dyn.atr) (hte : 0 ≤ env.trail.atr)
    (herr : env.internal_error = false)
    (hprev : stops pid = none) :
    0 < (update_position_stop_loss s env stops pid sym pt entry current).1 ∧
    ((update_position_stop_loss s env stops pid sym pt entry current).2 pid).map
        (·.current_stop) =
      some (update_position_stop_loss s env stops pid sym pt entry current).1 := by
  have hdyn := dynamic_stop_pos s env.dyn pt entry he hde hmult h0 h1
  have hbe := break_even_pos s pt entry current (1/100) he
  unfold update_position_stop_loss
  rw [herr]
  simp only [Bool.false_eq_true, if_false, hprev, Option.map_none']
  cases pt
  case LONG =>
    exact ⟨lt_of_lt_of_le hdyn (le_max_left _ _), by simp⟩
  case SHORT =>
    have htr : 0 < pyOr (calculate_trailing_stop_loss s env.trail .SHORT entry current none)
        (calculate_dynamic_stop_loss s env.dyn .SHORT entry) := by
      rcases trailing_none_short s env.trail entry current he hte hmult with h | ⟨t, ht, htpos⟩
      · rw [h]
        exact hdyn
      · rw [ht]
        simpa [pyOr, ne_of_gt htpos] using htpos
    exact ⟨lt_min hdyn (lt_min htr (pyOr_pos _ _ hdyn hbe)), by simp⟩

lemma run_stop_updates_chain (s : StopSettings) (pid sym : String)
    (pt : PositionType) (entry : ℚ)
    (hmult : 0 ≤ s.atr_multiplier) (h0 : 0 ≤ s.max_risk_per_trade)
    (h1 : s.max_risk_per_trade < 1) (he : 0 < entry) :
    ∀ (calls : List (StopCallEnv × ℚ)) (m : StopMap) (p : ℚ),
      (∀ c ∈ calls, callOK c) →
      (m pid).map (·.current_stop) = some p → 0 < p →
      List.Chain (favorable pt) p
        (run_stop_updates s pid sym pt entry calls m).1
  | [], _, _, _, _, _ => List.Chain.nil
  | (env, current) :: rest, m, p, hcalls, hm, hp => by
    obtain ⟨info, hinfo, hcs⟩ : ∃ info, m pid = some info ∧ info.current_stop = p := by
      cases h : m pid with
      | none => rw [h] at hm; simp at hm
      | some i =>
        rw [h] at hm
        simp only [Option.map_some', Option.some_inj] at hm
        exact ⟨i, rfl, hm⟩
    obtain ⟨herr, hde, hte, hc⟩ := hcalls _ (List.mem_cons_self _ _)
    have step := update_stop_prev_step s env m pid sym pt entry current info
      hmult h0 h1 he hc hde hte herr hinfo (hcs ▸ hp)
    have tail := run_stop_updates_chain s pid sym pt entry hmult h0 h1 he rest
      (update_position_stop_loss s env m pid sym pt entry current).2
      (update_position_stop_loss s env m pid sym pt entry current).1
      (fun c hcmem => hcalls c (List.mem_cons_of_mem _ hcmem))
      step.2.2 step.2.1
    simp only [run_stop_updates]
    exact List.Chain.cons (hcs ▸ step.1) tail

/-- C1, counterexample.  The claim asserts monotone non-loosening of the
returned stops across all calls, *including* calls where an internal error
occurs.  For a LONG position entered at 100, a first normal call (trailing
ATR 1) returns 100 - 1·2·0.7 = 98.6 and stores it; a second call that hits
the outer `except` branch returns the fixed stop 100·(1-0.02) = 98 < 98.6,
so the returned sequence [98.6, 98] loosens. -/
theorem C1_counterexample :
    ¬ List.Chain' (favorable .LONG)
      (run_stop_updates defaultStopSettings "p1" "BTC-USDT-SWAP" .LONG 100
        [(c1EnvNormal, 100), (c1EnvError, 110)] emptyStops).1 := by
  norm_num [run_stop_updates, update_position_stop_loss, calculate_dynamic_stop_loss,
    calculate_fixed_stop_loss, calculate_trailing_stop_loss, calculate_break_even_stop,
    calculate_volatility_factor, pyOr, defaultStopSettings, emptyStops, c1EnvNormal,
    c1EnvError, favorable, List.chain'_cons, List.chain'_singleton]

/-- C1 (amended): for every position and every sequence of
`update_position_stop_loss` calls that do not hit the method's outer
`except` branch — market data may still be unavailable (empty OHLCV) —
with positive entry and current prices, non-negative ATR inputs, a
non-negative ATR multiplier and a risk cap in [0,1), the returned stop
prices are monotonically non-loosening in the favorable direction
(non-decreasing for LONG, non-increasing for SHORT).  A call that hits the
outer `except` branch instead returns the fixed 2% stop, which can loosen. -/
theorem C1_stop_updates_monotone (s : StopSettings) (pid sym : String)
    (pt : PositionType) (entry : ℚ) (calls : List (StopCallEnv × ℚ))
    (m : StopMap)
    (hmult : 0 ≤ s.atr_multiplier) (h0 : 0 ≤ s.max_risk_per_trade)
    (h1 : s.max_risk_per_trade < 1) (he : 0 < entry)
    (hcalls : ∀ c ∈ calls, callOK c)
    (hinit : ∀ info, m pid = some info → 0 < info.current_stop) :
    List.Chain' (favorable pt)
      (run_stop_updates s pid sym pt entry calls m).1 := by
  cases calls with
  | nil => simp [run_stop_updates]
  | cons c rest =>
    obtain ⟨env, current⟩ := c
    obtain ⟨herr, hde, hte, hc⟩ := hcalls _ (List.mem_cons_self _ _)
    have hrest : ∀ c ∈ rest, callOK c := fun c hcm => hcalls c (List.mem_cons_of_mem _ hcm)
    cases hm : m pid with
    | some info =>
      have chain := run_stop_updates_chain s pid sym pt entry hmult h0 h1 he
        ((env, current) :: rest) m info.current_stop hcalls
        (by rw [hm]; rfl) (hinit _ hm)
      exact chain'_of_chain chain
    | none =>
      have step := update_stop_first_step s env m pid sym pt entry current
        hmult h0 h1 he hde hte herr hm
      have tail := run_stop_updates_chain s pid sym pt entry hmult h0 h1 he rest
        (update_position_stop_loss s env m pid sym pt entry current).2
        (update_position_stop_loss s env m pid sym pt entry current).1
        hrest step.2 step.1
      simp only [run_stop_updates]
      exact tail

/-- Witness for C1 (amended): two error-free LONG calls at entry 100 with
prices 100 then 110 satisfy every hypothesis, and the returned stop
sequence is non-loosening. -/
theorem C1_witness :
    (∀ c ∈ ([(c1EnvNormal, (100 : ℚ)), (c1EnvNormal, 110)] : List (StopCallEnv × ℚ)), callOK c) ∧
    List.Chain' (favorable .LONG)
      (run_stop_updates defaultStopSettings "p1" "BTC-USDT-SWAP" .LONG 100
        [(c1EnvNormal, 100), (c1EnvNormal, 110)] emptyStops).1 :=
  have hcalls : ∀ c ∈ ([(c1EnvNormal, (100 : ℚ)), (c1EnvNormal, 110)] :
      List (StopCallEnv × ℚ)), callOK c := by
    intro c hc
    fin_cases hc <;> norm_num [callOK, c1EnvNormal]
  ⟨hcalls,
   C1_stop_updates_monotone defaultStopSettings "p1" "BTC-USDT-SWAP" .LONG 100
     [(c1EnvNormal, 100), (c1EnvNormal, 110)] emptyStops
     (by norm_num [defaultStopSettings]) (by norm_num [defaultStopSettings])
     (by norm_num [defaultStopSettings]) (by norm_num)
     hcalls
     (fun info h => by simp [emptyStops] at h)⟩

/-- C7, counterexample.  The claim says no break-even stop is produced
when unrealized profit is below the threshold.  But the source computes
`abs(current - entry)/entry`: a LONG entered at 100 with the price fallen
to 98 has unrealized profit -2% < 1%, yet `calculate_break_even_stop`
returns the break-even stop 100·1.001 = 100.1. -/
theorem C7_counterexample :
    calculate_break_even_stop defaultStopSettings .LONG 100 98 (1/100) =
      some (1001/10) ∧
    spec_unrealized_profit_frac .LONG 100 98 < 1/100 := by
  constructor
  · norm_num [calculate_break_even_stop, defaultStopSettings]
  · norm_num [spec_unrealized_profit_frac]

/-- C7 (amended): with break-even enabled and a positive entry price, a
break-even stop is produced exactly when the *absolute* price move
`|current - entry|/entry` (profit or loss alike) reaches the threshold —
not when the signed unrealized profit does — and every produced stop lies
just beyond the entry price on the favorable side (above entry for LONG,
below entry for SHORT).  In particular a LONG entered at 100 whose price
rises to 110 gets a stop ≥ 100. -/
theorem C7_break_even_on_abs_move (s : StopSettings) (pt : PositionType)
    (entry current th : ℚ)
    (hen : s.break_even_enabled = true) (he : 0 < entry) :
    ((calculate_break_even_stop s pt entry current th).isSome ↔
      th ≤ |current - entry| / entry) ∧
    (∀ q, calculate_break_even_stop s pt entry current th = some q →
      match pt with
      | .LONG => entry < q
      | .SHORT => q < entry) := by
  unfold calculate_break_even_stop
  rw [hen]
  simp only [Bool.not_true, Bool.false_eq_true, if_false, if_neg (ne_of_gt he)]
  constructor
  · constructor
    · intro hs
      by_contra hth
      rw [if_neg hth] at hs
      simp at hs
    · intro hth
      rw [if_pos hth]
      cases pt <;> simp
  · intro q hq
    by_cases hth : th ≤ |current - entry| / entry
    · rw [if_pos hth] at hq
      cases pt
      · obtain rfl := Option.some_inj.mp hq
        show entry < entry * (1001/1000)
        nlinarith
      · obtain rfl := Option.some_inj.mp hq
        show entry * (999/1000) < entry
        nlinarith
    · rw [if_neg hth] at hq
      exact Option.noConfusion hq

/-- Witness for C7 (amended): Scenario E's inputs — defaults, LONG, entry
100, current 110, threshold 1% — satisfy the hypotheses; the produced stop
condition and favorable-side bound follow. -/
theorem C7_witness :
    ((calculate_break_even_stop defaultStopSettings .LONG 100 110 (1/100)).isSome ↔
      (1/100 : ℚ) ≤ |(110 : ℚ) - 100| / 100) ∧
    (∀ q, calculate_break_even_stop defaultStopSettings .LONG 100 110 (1/100) = some q →
      (100 : ℚ) < q) :=
  C7_break_even_on_abs_move defaultStopSettings .LONG 100 110 (1/100) rfl (by norm_num)

lemma dictLookup_replace {α : Type} (m : List (String × α)) (key : String) (v : α)
    (h : (dictLookup m key).isSome) :
    dictLookup (m.map (fun p => if p.1 = key then (key, v) else p)) key = some v := by
  induction m with
  | nil => simp [dictLookup] at h
  | cons p rest ih =>
    obtain ⟨k1, v1⟩ := p
    by_cases hk : k1 = key
    · subst hk
      rw [List.map_cons, if_pos (show (k1, v1).1 = k1 from rfl), dictLookup, if_pos rfl]
    · rw [dictLookup, if_neg hk] at h
      simp only [List.map_cons, if_neg hk]
      rw [dictLookup, if_neg hk]
      exact ih h

lemma dictLookup_append_self {α : Type} (m : List (String × α)) (key : String) (v : α)
    (h : dictLookup m key = none) :
    dictLookup (m ++ [(key, v)]) key = some v := by
  induction m with
  | nil => simp [dictLookup]
  | cons p rest ih =>
    obtain ⟨k1, v1⟩ := p
    rw [dictLookup] at h
    by_cases hk : k1 = key
    · rw [if_pos hk] at h
      exact Option.noConfusion h
    · rw [if_neg hk] at h
      rw [List.cons_append, dictLookup, if_neg hk]
      exact ih h

lemma dictLookup_dictInsert_self {α : Type} (m : List (String × α)) (key : String) (v : α) :
    dictLookup (dictInsert m key v) key = some v := by
  unfold dictInsert
  split_ifs with h
  · exact dictLookup_replace m key v h
  · exact dictLookup_append_self m key v (by
      cases hl : dictLookup m key with
      | none => rfl
      | some w => rw [hl] at h; simp at h)

lemma dictInsert_length_le {α : Type} (m : List (String × α)) (key : String) (v : α) :
    (dictInsert m key v).length ≤ m.length + 1 := by
  unfold dictInsert
  split_ifs with h
  · rw [List.length_map]
    omega
  · rw [List.length_append]
    simp

lemma openPositionCount_le (st : TradingState) :
    openPositionCount st ≤ st.positions.length := by
  unfold openPositionCount get_open_positions
  rw [List.length_map]
  exact List.length_filter_le _ _

lemma openPositionCount_congr (st st₂ : TradingState)
    (h : st.positions = st₂.positions) :
    openPositionCount st = openPositionCount st₂ := by
  unfold openPositionCount get_open_positions
  rw [h]

/-- C10: both the entry-permission check `_can_execute_trade` and the
risk-limit check `_check_risk_limits` compare the size of the entire
position book — Open and Closed (archived, retained up to 100 until
pruning) alike — against `max_positions`.  Whenever the retained count
reaches `max_positions`, `_can_execute_trade` returns `False` and
`_check_risk_limits` returns `True`, whatever the number of Open
positions (even zero). -/
theorem C10_book_size_gates_entry (cfg : TradingConfig) (st : TradingState)
    (now : ℚ) (h : cfg.max_positions ≤ st.positions.length) :
    can_execute_trade cfg st now = false ∧ check_risk_limits cfg st = true := by
  constructor
  · unfold can_execute_trade
    rw [if_pos h]
  · unfold check_risk_limits
    split_ifs <;> rfl

/-- Witness for C10: with `max_positions = 1` and one retained Closed
position (zero Open), entry is refused and the risk limit reports hit. -/
theorem C10_witness :
    c10Config.max_positions ≤ c10State.positions.length ∧
    openPositionCount c10State = 0 ∧
    (can_execute_trade c10Config c10State 0 = false ∧
      check_risk_limits c10Config c10State = true) :=
  ⟨by norm_num [c10Config, c10State, defaultTradingConfig],
   by decide,
   C10_book_size_gates_entry c10Config c10State 0
     (by norm_num [c10Config, c10State, defaultTradingConfig])⟩

/-- C6, counterexample.  With balance 1000, risk 2%, entry 100, stop 98,
max fraction 0.2 the claimed formula gives 2 (risk 20 over distance 2,
capped at 2 units) while `_calculate_position_size` returns 0.2 (risk 20
over the *price* 100): the source divides by the price, not by the
distance to the stop, and takes no stop argument at all. -/
theorem C6_counterexample :
    calculate_position_size defaultTradingConfig 1000 100 = 1/5 ∧
    spec_position_size_claimed 1000 (2/100) 100 98 (2/10) (1/1000) = 2 ∧
    (1/5 : ℚ) ≠ 2 := by
  refine ⟨?_, ?_, by norm_num⟩
  · norm_num [calculate_position_size, defaultTradingConfig]
  · norm_num [spec_position_size_claimed]

/-- C6 (amended): for every balance and non-zero entry price,
`_calculate_position_size` equals `riskAmount / entryPrice` with
`riskAmount = availableBalance × riskPercent`, capped by the
max-position-size fraction of balance and floored at the exchange minimum
size 0.001 — the stop distance plays no role. -/
theorem C6_position_size_divides_by_price (cfg : TradingConfig)
    (available_balance price : ℚ) (hp : price ≠ 0) :
    calculate_position_size cfg available_balance price =
      spec_position_size_amended available_balance (cfg.risk_percent / 100)
        price cfg.max_position_size := by
  unfold calculate_position_size spec_position_size_amended
  rw [if_neg hp]
  show max (min (available_balance * cfg.risk_percent / 100 / price)
      (available_balance * cfg.max_position_size / price)) (1/1000) =
    max (min (available_balance * (cfg.risk_percent / 100) / price)
      (available_balance * cfg.max_position_size / price)) (1/1000)
  congr 2
  ring

/-- Witness for C6 (amended) at balance 1000, price 100, defaults. -/
theorem C6_witness :
    calculate_position_size defaultTradingConfig 1000 100 =
      spec_position_size_amended 1000 (defaultTradingConfig.risk_percent / 100)
        100 defaultTradingConfig.max_position_size :=
  C6_position_size_divides_by_price defaultTradingConfig 1000 100 (by norm_num)

/-- C8: `close_position` transitions a position to Closed exactly once.
Closing an already-Closed position returns the not-open error
`"❌ 持倉已關閉"` and mutates nothing at all; when the ticker price is
unavailable or the gateway refuses the close, the call returns an error
with the state — position book, stop records, balances, daily P&L —
unchanged, the position still Open and tracked, so the next tick retries
it; and on success the position is Closed with exit price, realized P&L
and reason recorded, and daily P&L and balances are updated by exactly
that P&L. -/
theorem C8_close_position_exactly_once (cfg : TradingConfig) (env : GatewayEnv)
    (st : SysState) (position_id reason : String) (position : TradingPosition)
    (hpos : dictLookup st.ts.positions position_id = some position) :
    (position.status = PStatus.CLOSED →
      close_position cfg env st position_id reason = ((false, "❌ 持倉已關閉"), st)) ∧
    (position.status = PStatus.OPEN → env.price position.symbol = none →
      close_position cfg env st position_id reason = ((false, "❌ 無法獲取當前價格"), st)) ∧
    (position.status = PStatus.OPEN → env.futures_close_ok position.symbol = false →
      (close_position cfg env st position_id reason).1.1 = false ∧
      (close_position cfg env st position_id reason).2 = st) ∧
    (∀ p, position.status = PStatus.OPEN → env.price position.symbol = some p →
      env.futures_close_ok position.symbol = true →
      (close_position cfg env st position_id reason).1.1 = true ∧
      dictLookup (close_position cfg env st position_id reason).2.ts.positions position_id =
        some { position with
          status := PStatus.CLOSED
          exit_price := p
          closed_at := env.time_str
          pnl := calculate_position_pnl cfg position p
          close_reason := reason } ∧
      (close_position cfg env st position_id reason).2.ts.daily_pnl =
        st.ts.daily_pnl + calculate_position_pnl cfg position p ∧
      (close_position cfg env st position_id reason).2.ts.balance =
        st.ts.balance + calculate_position_pnl cfg position p ∧
      (close_position cfg env st position_id reason).2.ts.available_balance =
        st.ts.available_balance + calculate_position_pnl cfg position p) := by
  refine ⟨?_, ?_, ?_, ?_⟩
  · intro h
    simp [close_position, hpos, h]
  · intro h hpr
    simp [close_position, hpos, h, hpr]
  · intro h hok
    cases hpr : env.price position.symbol with
    | none => simp [close_position, hpos, h, hpr]
    | some p => simp [close_position, hpos, h, hpr, hok]
  · intro p h hpr hok
    simp [close_position, hpos, h, hpr, hok, dictLookup_dictInsert_self]

/-- Witness for C8: closing the already-Closed position is a pure error
with the state returned untouched, and closing the Open one marks it
Closed with exit price 90 and books its P&L exactly once. -/
theorem C8_witness :
    (close_position defaultTradingConfig c8Env c8State "c1" "MANUAL" =
      ((false, "❌ 持倉已關閉"), c8State)) ∧
    ((close_position defaultTradingConfig c8Env c8State "o1" "MANUAL").1.1 = true ∧
      dictLookup (close_position defaultTradingConfig c8Env c8State "o1" "MANUAL").2.ts.positions "o1" =
        some { c8OpenPosition with
          status := PStatus.CLOSED
          exit_price := 90
          closed_at := "1000"
          pnl := calculate_position_pnl defaultTradingConfig c8OpenPosition 90
          close_reason := "MANUAL" } ∧
      (close_position defaultTradingConfig c8Env c8State "o1" "MANUAL").2.ts.daily_pnl =
        c8State.ts.daily_pnl + calculate_position_pnl defaultTradingConfig c8OpenPosition 90 ∧
      (close_position defaultTradingConfig c8Env c8State "o1" "MANUAL").2.ts.balance =
        c8State.ts.balance + calculate_position_pnl defaultTradingConfig c8OpenPosition 90 ∧
      (close_position defaultTradingConfig c8Env c8State "o1" "MANUAL").2.ts.available_balance =
        c8State.ts.available_balance + calculate_position_pnl defaultTradingConfig c8OpenPosition 90) :=
  ⟨(C8_close_position_exactly_once defaultTradingConfig c8Env c8State "c1" "MANUAL"
      c8ClosedPosition (by decide)).1 rfl,
   (C8_close_position_exactly_once defaultTradingConfig c8Env c8State "o1" "MANUAL"
      c8OpenPosition (by decide)).2.2.2 90 rfl rfl rfl⟩

lemma can_execute_trade_length (cfg : TradingConfig) (st : TradingState) (now : ℚ)
    (h : can_execute_trade cfg st now = true) :
    st.positions.length < cfg.max_positions := by
  by_contra hle
  push_neg at hle
  unfold can_execute_trade at h
  rw [if_pos hle] at h
  exact Bool.noConfusion h

lemma open_long_positions_cases (cfg : TradingConfig) (s : StopSettings)
    (env : GatewayEnv) (st : SysState) (symbol : String) (price : ℚ)
    (quantity? : Option ℚ) :
    (open_long_position cfg s env st symbol price quantity?).2.ts.positions =
      st.ts.positions ∨
    ∃ k v, (open_long_position cfg s env st symbol price quantity?).2.ts.positions =
      dictInsert st.ts.positions k v := by
  unfold open_long_position
  split_ifs
  · exact Or.inl rfl
  · exact Or.inl rfl
  · exact Or.inr ⟨_, _, rfl⟩

lemma open_short_positions_cases (cfg : TradingConfig) (s : StopSettings)
    (env : GatewayEnv) (st : SysState) (symbol : String) (price : ℚ)
    (quantity? : Option ℚ) :
    (open_short_position cfg s env st symbol price quantity?).2.ts.positions =
      st.ts.positions ∨
    ∃ k v, (open_short_position cfg s env st symbol price quantity?).2.ts.positions =
      dictInsert st.ts.positions k v := by
  unfold open_short_position
  split_ifs
  · exact Or.inl rfl
  · exact Or.inl rfl
  · exact Or.inr ⟨_, _, rfl⟩

/-- C3 (amended): the control loop's entry path keeps the Open-position
count within `max_positions`: whenever `_can_execute_trade` permits an
entry — and every loop entry is so guarded — the state after
`open_long_position` or `open_short_position` has at most `max_positions`
Open positions (the guard compares the whole book, Open and Closed, so
the bound needs no inductive invariant).  Unguarded *direct* calls to the
two open methods perform no such check and can exceed the limit. -/
theorem C3_guarded_entry_respects_max (cfg : TradingConfig) (s : StopSettings)
    (env : GatewayEnv) (st : SysState) (symbol : String) (price : ℚ)
    (quantity? : Option ℚ)
    (h : can_execute_trade cfg st.ts env.now = true) :
    openPositionCount (open_long_position cfg s env st symbol price quantity?).2.ts ≤
      cfg.max_positions ∧
    openPositionCount (open_short_position cfg s env st symbol price quantity?).2.ts ≤
      cfg.max_positions := by
  have hlen := can_execute_trade_length cfg st.ts env.now h
  constructor
  · rcases open_long_positions_cases cfg s env st symbol price quantity? with hc | ⟨k, v, hc⟩
    · refine le_trans (openPositionCount_le _) ?_
      rw [hc]
      exact le_of_lt hlen
    · refine le_trans (openPositionCount_le _) ?_
      rw [hc]
      exact le_trans (dictInsert_length_le _ _ _) hlen
  · rcases open_short_positions_cases cfg s env st symbol price quantity? with hc | ⟨k, v, hc⟩
    · refine le_trans (openPositionCount_le _) ?_
      rw [hc]
      exact le_of_lt hlen
    · refine le_trans (openPositionCount_le _) ?_
      rw [hc]
      exact le_trans (dictInsert_length_le _ _ _) hlen

/-- C3, counterexample.  With `max_positions = 1` and one Open position
already held, a *direct* call to `open_long_position` (whose body
performs no position-count check) opens a second position: the invariant
"never more than maxPositions Open positions under any sequence of
operations, including the direct position-opening operations" fails. -/
theorem C3_counterexample :
    c3Config.max_positions = 1 ∧
    openPositionCount c3State.ts = 1 ∧
    openPositionCount (open_long_position c3Config defaultStopSettings c8Env c3State
      "ETH-USDT-SWAP" 100 (some 1)).2.ts = 2 := by
  refine ⟨rfl, by decide, by decide⟩

/-- Witness for C3 (amended): from an empty book under
`max_positions = 1` the guard permits the trade and both entry operations
leave at most one Open position. -/
theorem C3_witness :
    can_execute_trade c3Config c3EmptyState.ts c8Env.now = true ∧
    (openPositionCount (open_long_position c3Config defaultStopSettings c8Env c3EmptyState
        "BTC-USDT-SWAP" 100 (some 1)).2.ts ≤ c3Config.max_positions ∧
      openPositionCount (open_short_position c3Config defaultStopSettings c8Env c3EmptyState
        "BTC-USDT-SWAP" 100 (some 1)).2.ts ≤ c3Config.max_positions) :=
  ⟨by decide,
   C3_guarded_entry_respects_max c3Config defaultStopSettings c8Env c3EmptyState
     "BTC-USDT-SWAP" 100 (some 1) (by decide)⟩

/-- C2 (amended): on any tick on which the risk-limit check fires (shown
here for ticks that are not account-refresh ticks, `count % 10 ≠ 0`), the
control loop does *not* halt new entries only — it calls
`stop_auto_trading` and skips the whole rest of the tick, so no Open
position is evaluated, no stop is updated and no stop/target close
happens on that tick; the `auto_trading` flag is cleared with the
position book untouched, and every subsequent tick is a no-op, so
existing Open positions are no longer managed by the loop at all. -/
theorem C2_risk_limit_stops_whole_loop (cfg : TradingConfig) (s : StopSettings)
    (env : GatewayEnv) (count : Nat) (st : SysState)
    (hauto : st.ts.auto_trading = true) (hcount : count % 10 ≠ 0)
    (hrisk : check_risk_limits cfg st.ts = true) :
    auto_trading_tick cfg s env count st = stop_auto_trading st ∧
    (stop_auto_trading st).ts.positions = st.ts.positions ∧
    (stop_auto_trading st).stops = st.stops ∧
    (stop_auto_trading st).ts.auto_trading = false ∧
    (∀ (env₂ : GatewayEnv) (count₂ : Nat),
      auto_trading_tick cfg s env₂ count₂ (stop_auto_trading st) = stop_auto_trading st) := by
  refine ⟨?_, ?_, ?_, ?_, ?_⟩
  · unfold auto_trading_tick
    rw [hauto]
    simp only [Bool.not_true, Bool.false_eq_true, if_false, if_neg hcount, hrisk, if_true]
  · unfold stop_auto_trading
    rw [hauto]
    simp
  · unfold stop_auto_trading
    rw [hauto]
    simp
  · unfold stop_auto_trading
    rw [hauto]
    simp
  · intro env₂ count₂
    unfold auto_trading_tick stop_auto_trading
    rw [hauto]
    simp

/-- C2, counterexample.  In Scenario D's state the daily-loss limit is
hit and the position's stop is crossed, so the claim requires the tick to
still evaluate and close the position.  Instead the tick equals
`stop_auto_trading`: the position survives untouched and still Open, the
loop flag is cleared, and the following tick changes nothing — existing
positions are no longer evaluated, let alone closed. -/
theorem C2_counterexample :
    check_risk_limits c2Config c2State.ts = true ∧
    should_close_position c2State.stops c2Position 90 = true ∧
    auto_trading_tick c2Config defaultStopSettings c8Env 1 c2State =
      stop_auto_trading c2State ∧
    dictLookup (stop_auto_trading c2State).ts.positions "p1" = some c2Position ∧
    (stop_auto_trading c2State).ts.auto_trading = false ∧
    auto_trading_tick c2Config defaultStopSettings c8Env 2 (stop_auto_trading c2State) =
      stop_auto_trading c2State := by
  have hrisk : check_risk_limits c2Config c2State.ts = true := by
    norm_num [check_risk_limits, c2Config, c2State, defaultTradingConfig]
  have h := C2_risk_limit_stops_whole_loop c2Config defaultStopSettings c8Env 1 c2State
    rfl (by norm_num) hrisk
  exact ⟨hrisk, by decide, h.1, by decide, h.2.2.2.1, h.2.2.2.2 c8Env 2⟩

/-- Witness for C2 (amended), instantiated at Scenario D's state. -/
theorem C2_witness :
    (auto_trading_tick c2Config defaultStopSettings c8Env 1 c2State =
        stop_auto_trading c2State ∧
      (stop_auto_trading c2State).ts.positions = c2State.ts.positions ∧
      (stop_auto_trading c2State).stops = c2State.stops ∧
      (stop_auto_trading c2State).ts.auto_trading = false ∧
      auto_trading_tick c2Config defaultStopSettings c8Env 11
        (stop_auto_trading c2State) = stop_auto_trading c2State) :=
  have h := C2_risk_limit_stops_whole_loop c2Config defaultStopSettings c8Env 1 c2State
    rfl (by norm_num)
    (by norm_num [check_risk_limits, c2Config, c2State, defaultTradingConfig])
  ⟨h.1, h.2.1, h.2.2.1, h.2.2.2.1, h.2.2.2.2 c8Env 11⟩

/-- C9: for every price history of fewer than 100 points the analyzer
returns the InsufficientData outcome — `None`, never a structure with
fabricated levels — and for histories of at least 100 points that guard
never fires: the outcome is exactly whatever the downstream analysis
produced. -/
theorem C9_insufficient_data (ohlcv_data : List OhlcvBar)
    (analysis : Option SmcData) :
    (ohlcv_data.length < 100 → calculate_smc_levels ohlcv_data analysis = none) ∧
    (100 ≤ ohlcv_data.length → calculate_smc_levels ohlcv_data analysis = analysis) := by
  constructor
  · intro h
    unfold calculate_smc_levels
    rw [if_pos h]
  · intro h
    unfold calculate_smc_levels
    rw [if_neg (not_lt.mpr h)]

/-- Witness for C9: Scenario A's 50-point history yields
InsufficientData whatever the analysis would say, and a 150-point
history passes the guard. -/
theorem C9_witness :
    calculate_smc_levels (List.replicate 50 testBar) (some c9Analysis) = none ∧
    calculate_smc_levels (List.replicate 150 testBar) (some c9Analysis) =
      some c9Analysis :=
  ⟨(C9_insufficient_data (List.replicate 50 testBar) (some c9Analysis)).1 (by decide),
   (C9_insufficient_data (List.replicate 150 testBar) (some c9Analysis)).2 (by decide)⟩

lemma dictLookup_append {α : Type} (m₁ m₂ : List (String × α)) (p : String) :
    dictLookup (m₁ ++ m₂) p =
      match dictLookup m₁ p with
      | some v => some v
      | none => dictLookup m₂ p := by
  induction m₁ with
  | nil => simp [dictLookup]
  | cons q rest ih =>
    obtain ⟨k1, v1⟩ := q
    by_cases hk : k1 = p
    · simp [dictLookup, hk]
    · rw [List.cons_append, dictLookup, if_neg hk, dictLookup, if_neg hk]
      exact ih

lemma dictLookup_map_replace_ne {α : Type} (m : List (String × α))
    (k p : String) (v : α) (hne : k ≠ p) :
    dictLookup (m.map (fun q => if q.1 = k then (k, v) else q)) p =
      dictLookup m p := by
  induction m with
  | nil => rfl
  | cons q rest ih =>
    obtain ⟨k1, v1⟩ := q
    by_cases h1 : k1 = k
    · subst h1
      rw [List.map_cons, if_pos (show (k1, v1).1 = k1 from rfl)]
      rw [dictLookup, if_neg hne, dictLookup, if_neg (show k1 ≠ p from hne)]
      exact ih
    · rw [List.map_cons, if_neg (show (k1, v1).1 ≠ k from h1)]
      rw [dictLookup, dictLookup]
      by_cases h2 : k1 = p
      · rw [if_pos h2, if_pos h2]
      · rw [if_neg h2, if_neg h2]
        exact ih

lemma dictLookup_dictInsert_ne {α : Type} (m : List (String × α))
    (k p : String) (v : α) (hne : k ≠ p) :
    dictLookup (dictInsert m k v) p = dictLookup m p := by
  unfold dictInsert
  split_ifs with h
  · exact dictLookup_map_replace_ne m k p v hne
  · rw [dictLookup_append]
    cases hl : dictLookup m p with
    | none => simp [dictLookup, hne]
    | some w => rfl

lemma dictLookup_dictInsert_isSome {α : Type} (m : List (String × α))
    (k p : String) (v : α) :
    (dictLookup (dictInsert m k v) p).isSome =
      (decide (p = k) || (dictLookup m p).isSome) := by
  by_cases h : k = p
  · subst h
    rw [dictLookup_dictInsert_self]
    simp
  · rw [dictLookup_dictInsert_ne m k p v h,
      decide_eq_false (fun hpk : p = k => h hpk.symm)]
    simp

lemma scan_fold_lookup (cfg : ScannerConfig) (env : String → PairEnv) :
    ∀ (order : List String) (acc : List (String × Opportunity) × List Opportunity)
      (p : String),
      (dictLookup (order.foldl (scan_collect_step cfg env) acc).1 p).isSome ↔
        ((dictLookup acc.1 p).isSome ∨
          (p ∈ order ∧ (scan_single_pair cfg (env p) p).isSome))
  | [], acc, p => by simp
  | q :: rest, acc, p => by
    rw [List.foldl_cons,
      scan_fold_lookup cfg env rest (scan_collect_step cfg env acc q) p]
    unfold scan_collect_step
    by_cases hpq : p = q
    · subst hpq
      cases hq : scan_single_pair cfg (env p) p with
      | none => simp [hq]
      | some r =>
        simp only [hq, dictLookup_dictInsert_isSome, decide_eq_true_eq, List.mem_cons]
        simp
    · cases hq : scan_single_pair cfg (env q) q with
      | none => simp [hq, List.mem_cons, hpq]
      | some r =>
        simp only [hq, dictLookup_dictInsert_isSome, decide_eq_true_eq, List.mem_cons]
        simp [hpq]

lemma scan_fold_length (cfg : ScannerConfig) (env : String → PairEnv) :
    ∀ (order : List String) (acc : List (String × Opportunity) × List Opportunity),
      (order.foldl (scan_collect_step cfg env) acc).1.length ≤
        acc.1.length + order.length
  | [], acc => by simp
  | q :: rest, acc => by
    rw [List.foldl_cons]
    refine le_trans (scan_fold_length cfg env rest (scan_collect_step cfg env acc q)) ?_
    have hstep : (scan_collect_step cfg env acc q).1.length ≤ acc.1.length + 1 := by
      unfold scan_collect_step
      cases scan_single_pair cfg (env q) q with
      | none => exact Nat.le_succ _
      | some r => exact dictInsert_length_le acc.1 q r
    simp only [List.length_cons]
    omega

/-- C4 (amended): for every environment — per-instrument failures and
timeouts included — and every completion order of the submitted pairs,
`scan_all_pairs` (absent its own orchestrator `except`, which returns an
empty dict) returns a report whose `total_scanned` counts all N
instruments in aggregate, but whose only per-instrument slots are the
success entries: an instrument has a `results` slot iff its scan
succeeded.  Failed instruments are dropped from the report (written to
the log only), not recorded as slots; and no per-instrument failure
aborts the batch or disturbs the other instruments' slots. -/
theorem C4_scan_accounts_only_successes (cfg : ScannerConfig)
    (env : String → PairEnv) (pairs? : Option (List String))
    (completion_order : List String)
    (hperm : completion_order.Perm (effective_pairs pairs?)) :
    ∃ report, scan_all_pairs cfg env false pairs? completion_order = some report ∧
      report.total_scanned = (effective_pairs pairs?).length ∧
      report.successful_scans ≤ report.total_scanned ∧
      (∀ p, (dictLookup report.results p).isSome ↔
        (p ∈ effective_pairs pairs? ∧ (scan_single_pair cfg (env p) p).isSome)) := by
  refine ⟨_, rfl, rfl, ?_, ?_⟩
  · show (completion_order.foldl (scan_collect_step cfg env) ([], [])).1.length ≤ _
    refine le_trans (scan_fold_length cfg env completion_order ([], [])) ?_
    rw [hperm.length_eq]
    simp
  · intro p
    show (dictLookup (completion_order.foldl (scan_collect_step cfg env) ([], [])).1 p).isSome ↔ _
    rw [scan_fold_lookup cfg env completion_order ([], []) p]
    rw [hperm.mem_iff]
    simp [dictLookup]

/-- C4, counterexample.  One pair is scanned and its scan fails: the
batch completes, `total_scanned = 1`, but the failed instrument appears
nowhere in the report — `results` (the report's only per-instrument
slots; the dict `scan_all_pairs` returns has no failure field at all) is
empty — so "each instrument appears as either a success entry or a
recorded failure" is false: the failure is only logged, and the
instrument is silently dropped from the report. -/
theorem C4_counterexample :
    ∃ report, scan_all_pairs defaultScannerConfig (fun _ => c4FailPairEnv) false
        (some ["AAA"]) ["AAA"] = some report ∧
      report.total_scanned = 1 ∧
      report.results = [] ∧
      (dictLookup report.results "AAA").isSome = false :=
  ⟨_, rfl, rfl, rfl, rfl⟩

/-- Witness for C4 (amended), at a singleton universe whose only scan
fails: the report exists, counts the instrument in `total_scanned`, and
gives it no result slot. -/
theorem C4_witness :
    ∃ report, scan_all_pairs defaultScannerConfig (fun _ => c4FailPairEnv) false
        (some ["AAA"]) ["AAA"] = some report ∧
      report.total_scanned = (effective_pairs (some ["AAA"])).length ∧
      report.successful_scans ≤ report.total_scanned ∧
      ((dictLookup report.results "AAA").isSome ↔
        ("AAA" ∈ effective_pairs (some ["AAA"]) ∧
          (scan_single_pair defaultScannerConfig c4FailPairEnv "AAA").isSome)) := by
  obtain ⟨report, heq, ht, hs, hall⟩ :=
    C4_scan_accounts_only_successes defaultScannerConfig (fun _ => c4FailPairEnv)
      (some ["AAA"]) ["AAA"] (List.Perm.refl _)
  exact ⟨report, heq, ht, hs, hall "AAA"⟩

/-- C5, counterexample.  Two instruments clear the 0.7 threshold with
strengths 0.7 and 0.8; with completion order `[AAA, BBB]` the
`high_confidence_signals` list in the *returned* report — the local,
unsorted variable, not the sorted attribute — carries `[0.7, 0.8]`,
which violates descending order at the very first adjacent pair. -/
theorem C5_counterexample :
    ((scan_all_pairs defaultScannerConfig c5Env false (some ["AAA", "BBB"])
        ["AAA", "BBB"]).map
      (fun r => r.high_confidence_signals.map (·.signal_strength))) =
        some [7/10, 4/5] ∧
    ¬ List.Sorted (fun a b : ℚ => b ≤ a) [(7/10 : ℚ), 4/5] := by
  constructor
  · norm_num +decide [scan_all_pairs, scan_collect_step, scan_single_pair,
      calculate_smc_levels, analyze_trading_opportunity, calculate_signal_strength,
      determine_trade_direction, calculate_risk_level, find_entry_points,
      find_stop_loss_points, find_take_profit_points, calculate_reward_risk_ratio,
      effective_pairs, c5Env, c5DataA, c5DataB, defaultScannerConfig, dictInsert,
      dictLookup, testBar, List.length_replicate]
  · simp only [List.sorted_cons, List.mem_singleton, List.sorted_singleton,
      forall_eq, and_true]
    norm_num

/-- C5 (amended): the descending order lives only in the *stored*
attribute `self.high_confidence_signals`: for every scan report the
stored list is sorted descending by signal strength and is a permutation
of the report's own `high_confidence_signals` — the unsorted,
completion-ordered list that the returned report actually carries.  The
sort is Python's stable `sorted`, so ties keep completion order; no
tie-break by instrument name exists anywhere. -/
theorem C5_stored_list_sorted_desc (report : ScanReport) :
    List.Sorted (fun a b : Opportunity => b.signal_strength ≤ a.signal_strength)
      (stored_high_confidence_signals report) ∧
    (stored_high_confidence_signals report).Perm report.high_confidence_signals :=
  ⟨List.sorted_insertionSort _ _, List.perm_insertionSort _ _⟩

end CryptoAssistant
